import Mathlib

/-!
Verification of the Technova voice-backend call-flow runtime.

This file gives a shallow embedding of the repository's core modules —
`src/config/workflow_nodes.py` (node engine, per-type data validation,
condition evaluation), `src/core/pipeline.py` (the STT → AI → TTS
orchestrator), `src/services/ai_service.py` (conversation memory), and
`src/core/connection_manager.py` (session registry, heartbeats, broadcast) —
and settles the specification claims C1–C10 against it.

Modelling conventions:
* Python runtime values are embedded as `PyVal`; dictionaries as ordered
  association lists with unique keys (`PyDict`).
* The external collaborators (Whisper transcriber, Groq client, Edge TTS) are
  taken as oracle parameters, matching the spec's "external collaborator"
  stance; the code under `src/` is embedded faithfully.
* Wall-clock measurements (durations, timestamps) never affect control flow;
  they are embedded as the constant 0.
* Python floats are embedded as the exact rational values of IEEE-754
  binary64 numbers extended with infinities/NaN (`PyFloat`); conversions
  round to nearest, ties to even, as CPython does.
-/

namespace VoiceBackend

/-- Embedded Python runtime value (the fragment used by the core modules). -/
inductive PyVal where
  | none
  | bool (b : Bool)
  | int (n : Int)
  | str (s : String)
  | bytes (bs : List Nat)
  | list (xs : List PyVal)
  | dict (kvs : List (String × PyVal))

/-- Python dict with string keys, as an ordered association list (insertion
order, unique keys). -/
abbrev PyDict := List (String × PyVal)

/-- Python `d[k]` / `d.get(k)` lookup. -/
def dget (d : PyDict) (k : String) : Option PyVal :=
  (d.find? (fun kv => kv.1 == k)).map (·.2)

/-- Python `d.get(k, dflt)`. -/
def dgetD (d : PyDict) (k : String) (dflt : PyVal) : PyVal :=
  (dget d k).getD dflt

/-- Replace the value stored at an existing key, preserving insertion order. -/
def dset (d : PyDict) (k : String) (v : PyVal) : PyDict :=
  d.map (fun kv => if kv.1 == k then (kv.1, v) else kv)

/-- Python `str(b)` for `b : bool`. -/
def pyStrBool : Bool → String
  | true => "True"
  | false => "False"

mutual
/-- Python `repr` of an embedded value.  String escaping inside `repr` of a
string and of bytes is approximated (no quote escaping); the core code only
converts scalars. -/
def pyReprVal : PyVal → String
  | .none => "None"
  | .bool b => pyStrBool b
  | .int n => toString n
  | .str s => "'" ++ s ++ "'"
  | .bytes bs => "b'" ++ String.mk (bs.map Char.ofNat) ++ "'"
  | .list xs => "[" ++ pyReprList xs ++ "]"
  | .dict kvs => "\x7b" ++ pyReprPairs kvs ++ "\x7d"

/-- Comma-separated `repr`s of list elements. -/
def pyReprList : List PyVal → String
  | [] => ""
  | [x] => pyReprVal x
  | x :: xs => pyReprVal x ++ ", " ++ pyReprList xs

/-- Comma-separated `repr`s of dict items. -/
def pyReprPairs : List (String × PyVal) → String
  | [] => ""
  | [kv] => "'" ++ kv.1 ++ "': " ++ pyReprVal kv.2
  | kv :: kvs => "'" ++ kv.1 ++ "': " ++ pyReprVal kv.2 ++ ", " ++ pyReprPairs kvs
end

/-- Python `str(v)`: identity on strings, `repr`-like elsewhere. -/
def pyStr : PyVal → String
  | .str s => s
  | v => pyReprVal v

/-- Python truthiness: `None`, `False`, `0`, `""`, empty containers are falsy. -/
def pyTruthy : PyVal → Bool
  | .none => false
  | .bool b => b
  | .int n => n != 0
  | .str s => s != ""
  | .bytes bs => !bs.isEmpty
  | .list xs => !xs.isEmpty
  | .dict kvs => !kvs.isEmpty

/-- Python `a or b` (returns the first operand if truthy, else the second). -/
def pyOr (a b : PyVal) : PyVal :=
  if pyTruthy a then a else b

/-- Python `v == s` where `s` is a string literal. -/
def pyEqStr (v : PyVal) (s : String) : Bool :=
  match v with
  | .str t => t == s
  | _ => false

/-- Whether the value is Python `None`. -/
def isNoneV : PyVal → Bool
  | .none => true
  | _ => false

/-- The exception classes raised in the embedded fragment.  Only
`ValueError` and `TypeError` are caught by `evaluate_condition`'s `except`
clause; `OverflowError` (from `float()` on an out-of-range int) and
`re.error` (from a malformed regex pattern) are not its subclasses and
escape it. -/
inductive PyExc where
  | valueError
  | typeError
  | overflowError
  | reError
deriving DecidableEq

/-! ### Python float parsing and conversion (`float(x)`)

`evaluate_condition` coerces both operands of `greater_than`/`less_than`
with `float(...)`.  We embed the accepted string grammar of CPython's
`float` constructor — optional surrounding whitespace, optional sign,
then either a decimal literal (digits with single underscores between
them, optional fraction, optional exponent) or `inf`/`infinity`/`nan`
(case-insensitive).  The parsed exact value is rounded to the nearest
IEEE-754 binary64 value (ties to even), represented as the exact rational
of that binary64 value, extended with infinities and NaN; string
conversion saturates to ±∞ on overflow and to 0 on underflow (as CPython
does), while `float()` of an int beyond binary64 range raises
`OverflowError`. -/

/-- Python float value: the exact rational value of a binary64 float (every
`rat` produced by the conversions below is representable), or ±∞ / NaN. -/
inductive PyFloat where
  | rat (q : ℚ)
  | inf
  | neginf
  | nan

/-- Exponent-doubling phase of `natLog2`: an exponent `e` with `n < 2 ^ e`.
The 128-step fuel covers every numeral of fewer than `2 ^ 128` bits, i.e.
every representable int (CPython ints are memory-bounded far below that). -/
def natLog2Upper : Nat → Nat → Nat → Nat
  | 0, _, e => e
  | fuel + 1, n, e => if 2 ^ e ≤ n then natLog2Upper fuel n (e * 2) else e

/-- Binary-search phase of `natLog2`: the largest `e` with `2 ^ e ≤ n`,
maintaining `2 ^ lo ≤ n < 2 ^ hi`. -/
def natLog2Search : Nat → Nat → Nat → Nat → Nat
  | 0, _, lo, _ => lo
  | fuel + 1, n, lo, hi =>
    let mid := (lo + hi) / 2
    if mid = lo then lo
    else if 2 ^ mid ≤ n then natLog2Search fuel n mid hi
    else natLog2Search fuel n lo mid

/-- `⌊log₂ n⌋` for `n ≥ 1` (and 0 for `n = 0`), by exponent doubling and
binary search — plain integer arithmetic that the kernel evaluates. -/
def natLog2 (n : Nat) : Nat :=
  if n ≤ 1 then 0
  else natLog2Search 256 n 0 (natLog2Upper 128 n 1)

/-- Round `a / b` (for `b > 0`) to the nearest natural number, ties to even
(the IEEE-754 default rounding used by CPython's conversions). -/
def roundHalfEvenNat (a b : ℕ) : ℕ :=
  let n := a / b
  let r := a % b
  if 2 * r < b then n
  else if b < 2 * r then n + 1
  else if n % 2 = 0 then n else n + 1

/-- Round the positive rational `a / b` (`a, b ≥ 1`) to the nearest
binary64 value (ties to even): 52 fractional mantissa bits for normal
magnitudes, fixed scale `2 ^ -1074` in the subnormal range, `+∞` when the
rounded value reaches `2 ^ 1024`.  All computation is on naturals; the
resulting exact value is assembled with `mkRat` at the end. -/
def doublePos (a b : ℕ) : PyFloat :=
  let d : ℤ := (natLog2 a : ℤ) - (natLog2 b : ℤ)
  let geD : Bool :=
    if 0 ≤ d then decide (b * 2 ^ d.toNat ≤ a) else decide (b ≤ a * 2 ^ (-d).toNat)
  let e : ℤ := if geD then d else d - 1
  let k : ℤ := if (-1022) ≤ e then 52 - e else 1074
  let m : ℕ :=
    if 0 ≤ k then roundHalfEvenNat (a * 2 ^ k.toNat) b
    else roundHalfEvenNat a (b * 2 ^ (-k).toNat)
  let overflow : Bool :=
    if 0 ≤ k then decide (2 ^ (1024 + k.toNat) ≤ m)
    else decide (2 ^ 1024 ≤ m * 2 ^ (-k).toNat)
  if overflow then .inf
  else if 0 ≤ k then .rat (mkRat m (2 ^ k.toNat))
  else .rat (mkRat (m * 2 ^ (-k).toNat) 1)

/-- The decimal value `mant · 10 ^ e10` rounded to the nearest binary64
value (saturating to `+∞` on overflow, to 0 on underflow, as CPython's
string conversion does). -/
def decimalToDouble (mant : ℕ) (e10 : ℤ) : PyFloat :=
  if mant = 0 then .rat 0
  else if 0 ≤ e10 then doublePos (mant * 10 ^ e10.toNat) 1
  else doublePos mant (10 ^ (-e10).toNat)

/-- `a > b` on Python floats (`NaN` compares false against everything). -/
def PyFloat.gt : PyFloat → PyFloat → Bool
  | .nan, _ => false
  | _, .nan => false
  | .rat a, .rat b => decide (b < a)
  | .rat _, .inf => false
  | .rat _, .neginf => true
  | .inf, .inf => false
  | .inf, _ => true
  | .neginf, _ => false

/-- `a < b` on Python floats. -/
def PyFloat.lt (a b : PyFloat) : Bool := PyFloat.gt b a

/-- ASCII whitespace stripped by `float(str)`. -/
def isPyWs (c : Char) : Bool :=
  [' ', '\t', '\n', '\r', '\x0b', '\x0c'].contains c

/-- Parse a run of decimal digits where single underscores may appear between
two digits; returns the digits (underscores removed) and the rest. -/
def parseDigitsU : List Char → Option (List Char × List Char)
  | c :: rest =>
    if c.isDigit then
      let rec go : List Char → List Char → (List Char × List Char)
        | acc, '_' :: d :: r => if d.isDigit then go (acc ++ [d]) r else (acc, '_' :: d :: r)
        | acc, d :: r => if d.isDigit then go (acc ++ [d]) r else (acc, d :: r)
        | acc, [] => (acc, [])
      some (go [c] rest)
    else Option.none
  | [] => Option.none

/-- Numeric value of a digit run. -/
def digitsVal (ds : List Char) : Nat :=
  ds.foldl (fun a c => a * 10 + (c.toNat - 48)) 0

/-- Parse an optional exponent part `([eE][+-]?digits)`; fails only when an
`e`/`E` is present but not followed by digits. -/
def parseExp : List Char → Option (Int × List Char)
  | c :: rest =>
    if c == 'e' || c == 'E' then
      match rest with
      | '+' :: r => (parseDigitsU r).map (fun p => ((digitsVal p.1 : Int), p.2))
      | '-' :: r => (parseDigitsU r).map (fun p => (-(digitsVal p.1 : Int), p.2))
      | r => (parseDigitsU r).map (fun p => ((digitsVal p.1 : Int), p.2))
    else some (0, c :: rest)
  | [] => some (0, [])

/-- Parse an unsigned decimal float literal (`digits[.digits][exp]` or
`.digits[exp]`), returning its exact value as a decimal mantissa and
exponent (`mant · 10 ^ e10`) and the rest. -/
def parseUnsignedFloat (cs : List Char) : Option ((ℕ × ℤ) × List Char) :=
  match cs with
  | '.' :: r =>
    match parseDigitsU r with
    | some (frac, r2) =>
      (parseExp r2).map (fun pe =>
        ((digitsVal frac, pe.1 - (frac.length : ℤ)), pe.2))
    | Option.none => Option.none
  | _ =>
    match parseDigitsU cs with
    | some (intPart, r1) =>
      let fracAndRest : Option (List Char × List Char) :=
        match r1 with
        | '.' :: r2 =>
          match parseDigitsU r2 with
          | some (frac, r3) => some (frac, r3)
          | Option.none => some ([], r2)
        | _ => some ([], r1)
      match fracAndRest with
      | some (frac, r4) =>
        (parseExp r4).map (fun pe =>
          ((digitsVal (intPart ++ frac), pe.1 - (frac.length : ℤ)), pe.2))
      | Option.none => Option.none
    | Option.none => Option.none

/-- Lower-case an ASCII letter list. -/
def lowerAscii (cs : List Char) : List Char :=
  cs.map (fun c => if 'A' ≤ c && c ≤ 'Z' then Char.ofNat (c.toNat + 32) else c)

/-- Parse the body of a Python float literal after the optional sign. -/
def parseFloatBody (cs : List Char) : Option PyFloat :=
  match lowerAscii cs with
  | ['i', 'n', 'f'] => some .inf
  | ['i', 'n', 'f', 'i', 'n', 'i', 't', 'y'] => some .inf
  | ['n', 'a', 'n'] => some .nan
  | _ =>
    match parseUnsignedFloat cs with
    | some ((mant, e10), []) => some (decimalToDouble mant e10)
    | _ => Option.none

/-- Negate a Python float. -/
def PyFloat.neg : PyFloat → PyFloat
  | .rat q => .rat (-q)
  | .inf => .neginf
  | .neginf => .inf
  | .nan => .nan

/-- Python `float(s)` on a string: `some` value, or `none` (a `ValueError`). -/
def pyParseFloat (s : String) : Option PyFloat :=
  let cs := (s.data.dropWhile isPyWs).reverse.dropWhile isPyWs |>.reverse
  match cs with
  | '+' :: r => parseFloatBody r
  | '-' :: r => (parseFloatBody r).map PyFloat.neg
  | r => parseFloatBody r

/-- Python `float(v)` on an embedded value: numbers and numeric
strings/bytes convert (string conversion saturates on overflow); `None`
and containers raise `TypeError`, non-numeric strings raise `ValueError`,
and an int whose rounded value is beyond binary64 range raises
`OverflowError`. -/
def pyFloatOfVal : PyVal → Except PyExc PyFloat
  | .int n =>
    if n = 0 then .ok (.rat 0)
    else
      match doublePos n.natAbs 1 with
      | .inf => .error .overflowError
      | .rat v => .ok (.rat (if 0 < n then v else -v))
      | f => .ok f
  | .bool b => .ok (.rat (if b then 1 else 0))
  | .str s =>
    match pyParseFloat s with
    | some f => .ok f
    | Option.none => .error .valueError
  | .bytes bs =>
    match pyParseFloat (String.mk (bs.map Char.ofNat)) with
    | some f => .ok f
    | Option.none => .error .valueError
  | .none => .error .typeError
  | .list _ => .error .typeError
  | .dict _ => .error .typeError

/-- Whether `pat` occurs as a contiguous substring of `s` (the empty pattern
always occurs), i.e. Python `pat in s`. -/
def strContains (s pat : String) : Bool :=
  s.data.tails.any (fun t => pat.data.isPrefixOf t)

/-! #### Model of `re.search`

`re` is Python standard library.  The model covers the fragment the claims
exercise: patterns built only from literal characters and the `.` wildcard
are matched (a literal pattern is then exactly a substring search, and `.`
matches any character except a newline); clearly malformed patterns —
unbalanced group parentheses in a pattern with no character class and no
escape, where every `(`/`)` delimits a group and an unbalanced one makes
`re.compile` raise — raise `re.error`.  Syntactically valid patterns using
other metacharacters are outside the modelled fragment: they are routed to
the named constant `reSearchUnmodelled`, which no theorem asserts
anything about. -/

/-- The regex metacharacters of Python `re`; any other character is a
literal. -/
def reMetaChars : List Char :=
  ['.', '^', '$', '*', '+', '?', '\x7b', '\x7d', '[', ']', '\\', '|', '(', ')']

/-- A pattern atom of the modelled fragment. -/
inductive ReAtom where
  | lit (c : Char)
  | dot
deriving DecidableEq

/-- Compile a pattern made only of literal characters and `.` wildcards;
`none` if any other metacharacter occurs. -/
def reFragmentAtoms : List Char → Option (List ReAtom)
  | [] => some []
  | c :: cs =>
    if c == '.' then (reFragmentAtoms cs).map (ReAtom.dot :: ·)
    else if reMetaChars.contains c then Option.none
    else (reFragmentAtoms cs).map (ReAtom.lit c :: ·)

/-- Whether the group parentheses of a pattern are unbalanced. -/
def parenUnbalanced : List Char → Int → Bool
  | [], depth => depth != 0
  | c :: cs, depth =>
    if c == '(' then parenUnbalanced cs (depth + 1)
    else if c == ')' then (depth == 0) || parenUnbalanced cs (depth - 1)
    else parenUnbalanced cs depth

/-- Classification of a pattern by the modelled fragment. -/
inductive ReClass where
  | fragment (atoms : List ReAtom)
  | malformed
  | unmodelled

/-- Classify a pattern: literal/`.` sequences are in the fragment; a
pattern with unbalanced group parentheses (and no `[` or `\` that could
change their meaning) is malformed; everything else is unmodelled. -/
def reClassify (cs : List Char) : ReClass :=
  match reFragmentAtoms cs with
  | some atoms => .fragment atoms
  | Option.none =>
    if !cs.contains '[' && !cs.contains '\\' && parenUnbalanced cs 0 then .malformed
    else .unmodelled

/-- Match an atom sequence against the start of the input (`.` matches any
character except `'\n'`, as Python's dot does without `DOTALL`). -/
def reAtomsMatchHere : List ReAtom → List Char → Bool
  | [], _ => true
  | _ :: _, [] => false
  | .lit c :: as, x :: xs => (c == x) && reAtomsMatchHere as xs
  | .dot :: as, x :: xs => (x != '\n') && reAtomsMatchHere as xs

/-- `re.search` for a fragment pattern: the atoms match at some position. -/
def reSearchAtoms (atoms : List ReAtom) (s : String) : Bool :=
  s.data.tails.any (reAtomsMatchHere atoms)

/-- Behavior of `re.search` on valid patterns outside the modelled
fragment: not modelled; this named constant stands for it and is asserted
by no theorem. -/
def reSearchUnmodelled (_pat _s : String) : Bool := false

/-- Model of Python `re.search(pat, s)` (as a boolean match test):
fragment patterns are matched, malformed patterns raise `re.error`. -/
def reSearch (pat s : String) : Except PyExc Bool :=
  match reClassify pat.data with
  | .fragment atoms => .ok (reSearchAtoms atoms s)
  | .malformed => .error .reError
  | .unmodelled => .ok (reSearchUnmodelled pat s)

/-- `WorkflowNodeHandler.evaluate_condition`'s body before its
`try`/`except`: each branch either returns a boolean or raises one of the
exceptions produced by `float(...)`. -/
def evaluateConditionExc (actual : PyVal) (op : String) (expected : PyVal) :
    Except PyExc Bool :=
  if op == "equals" then .ok (pyStr actual == pyStr expected)
  else if op == "not_equals" then .ok (pyStr actual != pyStr expected)
  else if op == "contains" then .ok (strContains (pyStr actual) (pyStr expected))
  else if op == "greater_than" then do
    let a ← pyFloatOfVal actual
    let b ← pyFloatOfVal expected
    pure (PyFloat.gt a b)
  else if op == "less_than" then do
    let a ← pyFloatOfVal actual
    let b ← pyFloatOfVal expected
    pure (PyFloat.lt a b)
  else if op == "exists" then
    .ok (!isNoneV actual && !pyEqStr actual "")
  else if op == "regex" then
    reSearch (pyStr expected) (pyStr actual)
  else .ok false

/-- `WorkflowNodeHandler.evaluate_condition`: the `except (ValueError,
TypeError)` handler logs and returns `False` for exactly those two
exception classes; any other exception (`OverflowError` from `float()` on
a huge int, `re.error` from a malformed pattern) propagates to the
caller. -/
def evaluateCondition (actual : PyVal) (op : String) (expected : PyVal) :
    Except PyExc Bool :=
  match evaluateConditionExc actual op expected with
  | .ok b => .ok b
  | .error .valueError => .ok false
  | .error .typeError => .ok false
  | .error e => .error e

/-- Boolean projection of `evaluate_condition` used by the
`handle_conditional` embedding.  On the escaped-exception path the real
engine propagates up to `execute_workflow_node`'s outermost
`except Exception` handler (which returns its generic error dict); the
handler embeddings keep their dict-valued shape, collapse that path to
`false` here, and no theorem asserts the handlers' behavior on it. -/
def evaluateConditionBool (actual : PyVal) (op : String) (expected : PyVal) : Bool :=
  match evaluateCondition actual op expected with
  | .ok b => b
  | .error _ => false

/-! ### Node types and handlers (`src/config/workflow_nodes.py`) -/

/-- The `NodeType` enum: the closed variant set of workflow node types. -/
inductive NodeType where
  | greeting
  | audio
  | menu
  | userInput
  | speechInput
  | conditional
  | voicemail
  | transfer
  | repeatNode
  | endNode
  | aiAssistant
  | queue
  | sms
  | setVariable
  | apiCall
deriving DecidableEq

/-- The string value of each `NodeType` member (note `USER_INPUT = "input"`). -/
def NodeType.value : NodeType → String
  | .greeting => "greeting"
  | .audio => "audio"
  | .menu => "menu"
  | .userInput => "input"
  | .speechInput => "speech_input"
  | .conditional => "conditional"
  | .voicemail => "voicemail"
  | .transfer => "transfer"
  | .repeatNode => "repeat"
  | .endNode => "end"
  | .aiAssistant => "ai_assistant"
  | .queue => "queue"
  | .sms => "sms"
  | .setVariable => "set_variable"
  | .apiCall => "api_call"

/-- All `NodeType` members. -/
def allNodeTypes : List NodeType :=
  [.greeting, .audio, .menu, .userInput, .speechInput, .conditional, .voicemail,
   .transfer, .repeatNode, .endNode, .aiAssistant, .queue, .sms, .setVariable, .apiCall]

/-- The enum constructor `NodeType(s)`: the member with value `s`, or a
`ValueError` (`none`). -/
def NodeType.fromString (s : String) : Option NodeType :=
  allNodeTypes.find? (fun nt => nt.value == s)

/-- `str(node_type)` for an enum member, as interpolated into the
unknown-node-type error message (`"NodeType.GREETING"` style; on older Python
the bare value is interpolated instead — no claim depends on the exact text). -/
def NodeType.pyName : NodeType → String
  | .greeting => "NodeType.GREETING"
  | .audio => "NodeType.AUDIO"
  | .menu => "NodeType.MENU"
  | .userInput => "NodeType.USER_INPUT"
  | .speechInput => "NodeType.SPEECH_INPUT"
  | .conditional => "NodeType.CONDITIONAL"
  | .voicemail => "NodeType.VOICEMAIL"
  | .transfer => "NodeType.TRANSFER"
  | .repeatNode => "NodeType.REPEAT"
  | .endNode => "NodeType.END"
  | .aiAssistant => "NodeType.AI_ASSISTANT"
  | .queue => "NodeType.QUEUE"
  | .sms => "NodeType.SMS"
  | .setVariable => "NodeType.SET_VARIABLE"
  | .apiCall => "NodeType.API_CALL"

/-- The synthesizer collaborator: `pipeline.tts.text_to_speech_bytes(text)`,
taken as an oracle returning its result dict. -/
abbrev Tts := PyVal → PyDict

/-- `WorkflowNodeHandler.handle_greeting`. -/
def handleGreeting (tts : Tts) (nodeData _ctx : PyDict) : PyDict :=
  let text := dgetD nodeData "text" (.str "Welcome to our service.")
  let audioResult := tts text
  [("success", .bool true),
   ("action", .str "play_prompt"),
   ("prompt_audio", dgetD audioResult "audio_data" .none),
   ("next_action", .str "wait_for_input")]

/-- `WorkflowNodeHandler.handle_audio` (frontend-compatible greeting). -/
def handleAudio (tts : Tts) (nodeData _ctx : PyDict) : PyDict :=
  let text := pyOr (dgetD nodeData "messageText" .none)
                   (dgetD nodeData "text" (.str "Welcome to our service."))
  let mode := dgetD nodeData "mode" (.str "tts")
  let audioUrl := pyOr (dgetD nodeData "audioUrl" .none) (dgetD nodeData "audio_url" .none)
  if pyEqStr mode "upload" && pyTruthy audioUrl then
    [("success", .bool true),
     ("action", .str "play_audio"),
     ("audio_url", audioUrl),
     ("next_action", .str "wait_for_input")]
  else
    let audioResult := tts text
    [("success", .bool true),
     ("action", .str "play_prompt"),
     ("prompt_audio", dgetD audioResult "audio_data" .none),
     ("next_action", .str "wait_for_input")]

/-- `WorkflowNodeHandler.handle_menu` (delegates to `handle_greeting`). -/
def handleMenu (tts : Tts) (nodeData ctx : PyDict) : PyDict :=
  handleGreeting tts nodeData ctx

/-- `WorkflowNodeHandler.handle_user_input`. -/
def handleUserInput (tts : Tts) (nodeData _ctx : PyDict) : PyDict :=
  let text := dgetD nodeData "text" (.str "Please enter your selection.")
  let inputType := dgetD nodeData "input_type" (.str "digits")
  let audioResult := tts text
  [("success", .bool true),
   ("action", .str "collect_input"),
   ("prompt_audio", dgetD audioResult "audio_data" .none),
   ("input_type", inputType),
   ("num_digits", dgetD nodeData "num_digits" (.int 1)),
   ("timeout", dgetD nodeData "timeout" (.int 10)),
   ("next_action", .str "wait_for_input")]

/-- `WorkflowNodeHandler.handle_speech_input` (delegates to
`handle_user_input`). -/
def handleSpeechInput (tts : Tts) (nodeData ctx : PyDict) : PyDict :=
  handleUserInput tts nodeData ctx

/-- `WorkflowNodeHandler.handle_conditional`.  The context lookup
`context.get(variable)` is modelled for string variable names (the context's
keys are strings); a non-string name finds no binding. -/
def handleConditional (_tts : Tts) (nodeData ctx : PyDict) : PyDict :=
  let varName := dgetD nodeData "variable" (.str "caller_input")
  let operator := dgetD nodeData "operator" (.str "equals")
  let value := dgetD nodeData "value" (.str "")
  let actualValue :=
    match varName with
    | .str v => dgetD ctx v .none
    | _ => .none
  let opStr := match operator with | .str s => s | _ => ""
  let result := evaluateConditionBool actualValue opStr value
  [("success", .bool true),
   ("action", .str "evaluate_condition"),
   ("result", .bool result),
   ("next_action", .str "route_based_on_result")]

/-- `WorkflowNodeHandler.handle_voicemail`. -/
def handleVoicemail (tts : Tts) (nodeData _ctx : PyDict) : PyDict :=
  let text := dgetD nodeData "text" (.str "Please leave your message after the beep.")
  let audioResult := tts text
  [("success", .bool true),
   ("action", .str "record_voicemail"),
   ("prompt_audio", dgetD audioResult "audio_data" .none),
   ("max_length", dgetD nodeData "max_length" (.int 60)),
   ("transcribe", dgetD nodeData "transcribe" (.bool true)),
   ("next_action", .str "wait_for_recording")]

/-- `WorkflowNodeHandler.handle_transfer`. -/
def handleTransfer (tts : Tts) (nodeData _ctx : PyDict) : PyDict :=
  let destination := dgetD nodeData "destination" .none
  let announceText := dgetD nodeData "announce_text" .none
  let promptAudio :=
    if pyTruthy announceText then dgetD (tts announceText) "audio_data" .none
    else .none
  [("success", .bool true),
   ("action", .str "transfer_call"),
   ("destination", destination),
   ("prompt_audio", promptAudio),
   ("timeout", dgetD nodeData "timeout" (.int 30)),
   ("next_action", .str "initiate_transfer")]

/-- `WorkflowNodeHandler.handle_repeat`. -/
def handleRepeat (tts : Tts) (nodeData _ctx : PyDict) : PyDict :=
  let repeatMessage := dgetD nodeData "repeat_message" (.str "Repeating the options.")
  let maxRepeats := dgetD nodeData "max_repeats" (.int 3)
  let audioResult := tts repeatMessage
  [("success", .bool true),
   ("action", .str "repeat_prompt"),
   ("prompt_audio", dgetD audioResult "audio_data" .none),
   ("max_repeats", maxRepeats),
   ("next_action", .str "repeat_or_fallback")]

/-- `WorkflowNodeHandler.handle_end`. -/
def handleEnd (tts : Tts) (nodeData _ctx : PyDict) : PyDict :=
  let text := dgetD nodeData "text" .none
  let reason := dgetD nodeData "reason" (.str "normal")
  let promptAudio :=
    if pyTruthy text then dgetD (tts text) "audio_data" .none else .none
  [("success", .bool true),
   ("action", .str "end_call"),
   ("prompt_audio", promptAudio),
   ("reason", reason),
   ("next_action", .str "terminate_call")]

/-- `WorkflowNodeHandler.handle_ai_assistant`. -/
def handleAiAssistant (tts : Tts) (nodeData _ctx : PyDict) : PyDict :=
  let streamUrl := dgetD nodeData "stream_url" .none
  let welcomeMessage := dgetD nodeData "welcome_message" .none
  let promptAudio :=
    if pyTruthy welcomeMessage then dgetD (tts welcomeMessage) "audio_data" .none
    else .none
  [("success", .bool true),
   ("action", .str "connect_ai_assistant"),
   ("stream_url", streamUrl),
   ("prompt_audio", promptAudio),
   ("max_duration", dgetD nodeData "max_duration" (.int 300)),
   ("next_action", .str "stream_to_ai")]

/-- A bound handler method of `WorkflowNodeHandler`. -/
abbrev HandlerFn := Tts → PyDict → PyDict → PyDict

/-- The `handle_*` methods defined on `WorkflowNodeHandler`, by attribute
name — the attribute table that `getattr(self, "handle_" + value)` consults.
There is no `handle_input`, `handle_queue`, `handle_sms`,
`handle_set_variable` or `handle_api_call` attribute. -/
def handlerMethods : List (String × HandlerFn) :=
  [("handle_greeting", handleGreeting),
   ("handle_audio", handleAudio),
   ("handle_menu", handleMenu),
   ("handle_user_input", handleUserInput),
   ("handle_speech_input", handleSpeechInput),
   ("handle_conditional", handleConditional),
   ("handle_voicemail", handleVoicemail),
   ("handle_transfer", handleTransfer),
   ("handle_repeat", handleRepeat),
   ("handle_end", handleEnd),
   ("handle_ai_assistant", handleAiAssistant)]

/-- `WorkflowNodeHandler.handle_node`: runtime name lookup of
`handle_{node_type.value}` via `getattr`, falling back to the
unknown-node-type error result. -/
def handleNode (tts : Tts) (nodeType : NodeType) (nodeData ctx : PyDict) : PyDict :=
  match (handlerMethods.find? (fun kv => kv.1 == "handle_" ++ nodeType.value)).map (·.2) with
  | some h => h tts nodeData ctx
  | Option.none =>
    [("success", .bool false),
     ("error", .str ("Unknown node type: " ++ nodeType.pyName)),
     ("action", .str "error")]

/-- `execute_workflow_node`: constructs `NodeType(node_type)` and dispatches
to `handle_node`; a `ValueError` from the enum constructor yields the
unknown-node-type error dict.  (The final `except Exception` branch is
unreachable in the embedding: the handlers are total.)  Note: no call to
`validate_node_data` occurs on this path. -/
def executeWorkflowNode (tts : Tts) (nodeType : String) (nodeData ctx : PyDict) : PyDict :=
  match NodeType.fromString nodeType with
  | some ne => handleNode tts ne nodeData ctx
  | Option.none =>
    [("success", .bool false),
     ("error", .str ("Unknown node type: " ++ nodeType)),
     ("action", .str "error")]

/-! ### Node data validation (`validate_node_data` and the pydantic models)

Each `*NodeData` pydantic model is embedded as a validator that checks the
input dict field by field (collecting all errors, as pydantic does), fills
defaults, runs the model's `model_post_init` backfill, and — because the
models declare `extra = "allow"` — passes unknown keys through after the
declared fields, matching `model.dict()`.  Error detail is abstracted to
which field is missing or invalid (the code stores `str(e)`, a formatted
message listing exactly those fields).  Lax-mode numeric string coercion is
not modelled; every theorem below evaluates the validators on inputs where
no coercion occurs. -/

/-- A single validation error. -/
inductive VError where
  | missing (fld : String)
  | invalid (fld : String)
  | unknownType (t : String)
deriving DecidableEq

/-- Accumulated validation state: errors so far and the declared fields
produced so far (in declaration order). -/
structure VState where
  errs : List VError
  out : PyDict

/-- Record an error. -/
def vErr (st : VState) (e : VError) : VState := { st with errs := st.errs ++ [e] }

/-- Record a validated field value. -/
def vPut (st : VState) (k : String) (v : PyVal) : VState := { st with out := st.out ++ [(k, v)] }

/-- A `str` field with a default and a constraint predicate. -/
def fldStrD (d : PyDict) (name dflt : String) (check : String → Bool) (st : VState) : VState :=
  match dget d name with
  | Option.none => vPut st name (.str dflt)
  | some (.str s) => if check s then vPut st name (.str s) else vErr st (.invalid name)
  | some _ => vErr st (.invalid name)

/-- A required `str` field (`Field(...)`) with a constraint predicate. -/
def fldStrReq (d : PyDict) (name : String) (check : String → Bool) (st : VState) : VState :=
  match dget d name with
  | Option.none => vErr st (.missing name)
  | some (.str s) => if check s then vPut st name (.str s) else vErr st (.invalid name)
  | some _ => vErr st (.invalid name)

/-- An `Optional[str] = None` field. -/
def fldStrOpt (d : PyDict) (name : String) (st : VState) : VState :=
  match dget d name with
  | Option.none => vPut st name .none
  | some .none => vPut st name .none
  | some (.str s) => vPut st name (.str s)
  | some _ => vErr st (.invalid name)

/-- An `int` field with a default and `ge`/`le` bounds. -/
def fldIntD (d : PyDict) (name : String) (dflt lo hi : Int) (st : VState) : VState :=
  match dget d name with
  | Option.none => vPut st name (.int dflt)
  | some (.int n) => if lo ≤ n && n ≤ hi then vPut st name (.int n) else vErr st (.invalid name)
  | some _ => vErr st (.invalid name)

/-- An `Optional[int] = None` field (backend-mapped fields carry no bounds). -/
def fldIntOpt (d : PyDict) (name : String) (st : VState) : VState :=
  match dget d name with
  | Option.none => vPut st name .none
  | some .none => vPut st name .none
  | some (.int n) => vPut st name (.int n)
  | some _ => vErr st (.invalid name)

/-- A `bool` field with a default. -/
def fldBoolD (d : PyDict) (name : String) (dflt : Bool) (st : VState) : VState :=
  match dget d name with
  | Option.none => vPut st name (.bool dflt)
  | some (.bool b) => vPut st name (.bool b)
  | some _ => vErr st (.invalid name)

/-- An `Optional[bool] = None` field. -/
def fldBoolOpt (d : PyDict) (name : String) (st : VState) : VState :=
  match dget d name with
  | Option.none => vPut st name .none
  | some .none => vPut st name .none
  | some (.bool b) => vPut st name (.bool b)
  | some _ => vErr st (.invalid name)

/-- A dict whose values are all strings (`Dict[str, str]`). -/
def isStrDict : PyVal → Bool
  | .dict kvs => kvs.all (fun kv => match kv.2 with | .str _ => true | _ => false)
  | _ => false

/-- The `menu_options : List[Dict[str, str]]` field (default `[]`). -/
def fldMenuOptions (d : PyDict) (name : String) (st : VState) : VState :=
  match dget d name with
  | Option.none => vPut st name (.list [])
  | some (.list xs) => if xs.all isStrDict then vPut st name (.list xs) else vErr st (.invalid name)
  | some _ => vErr st (.invalid name)

/-- An `Optional[Dict[str, Any]] = None` field. -/
def fldDictOpt (d : PyDict) (name : String) (st : VState) : VState :=
  match dget d name with
  | Option.none => vPut st name .none
  | some .none => vPut st name .none
  | some (.dict kvs) => vPut st name (.dict kvs)
  | some _ => vErr st (.invalid name)

/-- The pattern `^[a-z]\x7b2\x7d-[A-Z]\x7b2\x7d$` (e.g. `en-US`). -/
def isLangTag (s : String) : Bool :=
  match s.data with
  | [a, b, '-', c, d] => a.isLower && b.isLower && c.isUpper && d.isUpper
  | _ => false

/-- The pattern `^\+?[1-9]\d\x7b1,14\x7d$` (E.164-like phone number). -/
def isPhoneE164 (s : String) : Bool :=
  let cs := match s.data with
    | '+' :: r => r
    | r => r
  match cs with
  | c :: rest =>
    ('1' ≤ c && c ≤ '9') && rest.all Char.isDigit
      && decide (1 ≤ rest.length) && decide (rest.length ≤ 14)
  | [] => false

/-- The pattern `^https?://[^\s/$]+` (anchored at the start only): scheme
followed by at least one character that is not whitespace, `/` or `$`. -/
def isHttpUrl (s : String) : Bool :=
  let tail : List Char → Bool := fun rest =>
    match rest with
    | c :: _ => !(isPyWs c || c == '/' || c == '$')
    | [] => false
  if s.startsWith "https://" then tail (s.data.drop 8)
  else if s.startsWith "http://" then tail (s.data.drop 7)
  else false

/-- The backfill step `if self.dst is None [and self.src]: self.dst = self.src`
used by every `model_post_init`. -/
def backfill (r : PyDict) (dst src : String) (onlyIfTruthy : Bool) : PyDict :=
  if isNoneV (dgetD r dst .none) && (!onlyIfTruthy || pyTruthy (dgetD r src .none)) then
    dset r dst (dgetD r src .none)
  else r

/-- Finish a model: run `model_post_init` on the declared record, then append
the extra (undeclared) input keys, as `extra = "allow"` plus `.dict()` do. -/
def finishModel (d : PyDict) (declared : List String) (post : PyDict → PyDict)
    (st : VState) : VState :=
  { errs := st.errs,
    out := post st.out ++ d.filter (fun kv => !declared.contains kv.1) }

/-- Declared fields of `GreetingNodeData`. -/
def greetingDeclared : List String :=
  ["text", "voice", "language", "audio_url", "menu_options", "timeout", "max_retries"]

/-- `GreetingNodeData` validation (no `model_post_init`). -/
def validateGreeting (d : PyDict) : VState :=
  let st : VState := ⟨[], []⟩
  let st := fldStrD d "text" "Welcome to our service." (fun _ => true) st
  let st := fldStrD d "voice" "alice" (fun s => ["alice", "man", "woman", "woman2"].contains s) st
  let st := fldStrD d "language" "en-US" isLangTag st
  let st := fldStrOpt d "audio_url" st
  let st := fldMenuOptions d "menu_options" st
  let st := fldIntD d "timeout" 10 1 60 st
  let st := fldIntD d "max_retries" 3 1 10 st
  finishModel d greetingDeclared id st

/-- Declared fields of `AudioNodeData` (frontend names, then backend-mapped
parallels). -/
def audioDeclared : List String :=
  ["mode", "messageText", "voice", "language", "audioUrl", "audioAssetId",
   "afterPlayback", "timeoutSeconds", "maxRetries", "fallbackAudioNodeId",
   "promptKey", "text", "timeout", "max_retries", "audio_url", "audio_asset_id"]

/-- `AudioNodeData.model_post_init`. -/
def audioPostInit (r : PyDict) : PyDict :=
  let r := backfill r "text" "messageText" true
  let r := backfill r "timeout" "timeoutSeconds" false
  let r := backfill r "max_retries" "maxRetries" false
  let r := backfill r "audio_url" "audioUrl" true
  backfill r "audio_asset_id" "audioAssetId" true

/-- `AudioNodeData` validation. -/
def validateAudio (d : PyDict) : VState :=
  let st : VState := ⟨[], []⟩
  let st := fldStrD d "mode" "tts" (fun s => ["tts", "upload"].contains s) st
  let st := fldStrD d "messageText" "Welcome to our service." (fun _ => true) st
  let st := fldStrD d "voice" "en-GB-SoniaNeural" (fun _ => true) st
  let st := fldStrD d "language" "en-GB" (fun _ => true) st
  let st := fldStrOpt d "audioUrl" st
  let st := fldStrOpt d "audioAssetId" st
  let st := fldStrD d "afterPlayback" "next" (fun s => ["next", "wait"].contains s) st
  let st := fldIntD d "timeoutSeconds" 10 1 60 st
  let st := fldIntD d "maxRetries" 3 1 10 st
  let st := fldStrOpt d "fallbackAudioNodeId" st
  let st := fldStrOpt d "promptKey" st
  let st := fldStrOpt d "text" st
  let st := fldIntOpt d "timeout" st
  let st := fldIntOpt d "max_retries" st
  let st := fldStrOpt d "audio_url" st
  let st := fldStrOpt d "audio_asset_id" st
  finishModel d audioDeclared audioPostInit st

/-- Declared fields of `UserInputNodeData`. -/
def userInputDeclared : List String :=
  ["digit", "label", "action", "destination", "promptAudioNodeId",
   "invalidAudioNodeId", "timeoutAudioNodeId", "maxAttempts", "timeoutSeconds",
   "timeout", "max_attempts", "prompt_audio_node_id", "invalid_audio_node_id",
   "timeout_audio_node_id"]

/-- `UserInputNodeData.model_post_init`. -/
def userInputPostInit (r : PyDict) : PyDict :=
  let r := backfill r "timeout" "timeoutSeconds" false
  let r := backfill r "max_attempts" "maxAttempts" false
  let r := backfill r "prompt_audio_node_id" "promptAudioNodeId" true
  let r := backfill r "invalid_audio_node_id" "invalidAudioNodeId" true
  backfill r "timeout_audio_node_id" "timeoutAudioNodeId" true

/-- `UserInputNodeData` validation. -/
def validateUserInput (d : PyDict) : VState :=
  let st : VState := ⟨[], []⟩
  let st := fldStrD d "digit" "1" (fun _ => true) st
  let st := fldStrD d "label" "" (fun _ => true) st
  let st := fldStrD d "action" "transfer"
    (fun s => ["transfer", "voicemail", "menu", "end"].contains s) st
  let st := fldStrOpt d "destination" st
  let st := fldStrOpt d "promptAudioNodeId" st
  let st := fldStrOpt d "invalidAudioNodeId" st
  let st := fldStrOpt d "timeoutAudioNodeId" st
  let st := fldIntD d "maxAttempts" 3 1 10 st
  let st := fldIntD d "timeoutSeconds" 10 1 60 st
  let st := fldIntOpt d "timeout" st
  let st := fldIntOpt d "max_attempts" st
  let st := fldStrOpt d "prompt_audio_node_id" st
  let st := fldStrOpt d "invalid_audio_node_id" st
  let st := fldStrOpt d "timeout_audio_node_id" st
  finishModel d userInputDeclared userInputPostInit st

/-- Declared fields of `ConditionalNodeData`. -/
def conditionalDeclared : List String :=
  ["condition", "variable", "operator", "value", "truePath", "falsePath",
   "true_path", "false_path"]

/-- `ConditionalNodeData.model_post_init`. -/
def conditionalPostInit (r : PyDict) : PyDict :=
  let r := backfill r "true_path" "truePath" true
  backfill r "false_path" "falsePath" true

/-- `ConditionalNodeData` validation. -/
def validateConditional (d : PyDict) : VState :=
  let st : VState := ⟨[], []⟩
  let st := fldStrD d "condition" "business_hours"
    (fun s => ["business_hours", "caller_id", "custom"].contains s) st
  let st := fldStrOpt d "variable" st
  let st := fldStrD d "operator" "equals"
    (fun s => ["equals", "not_equals", "contains", "greater_than", "less_than",
               "exists", "regex"].contains s) st
  let st := fldStrOpt d "value" st
  let st := fldStrOpt d "truePath" st
  let st := fldStrOpt d "falsePath" st
  let st := fldStrOpt d "true_path" st
  let st := fldStrOpt d "false_path" st
  finishModel d conditionalDeclared conditionalPostInit st

/-- Declared fields of `VoicemailNodeData`. -/
def voicemailDeclared : List String :=
  ["text", "maxLength", "transcribe", "playBeep", "greetingAudioNodeId",
   "mailbox", "storageRoute", "max_length", "greeting_audio_node_id"]

/-- `VoicemailNodeData.model_post_init`. -/
def voicemailPostInit (r : PyDict) : PyDict :=
  let r := backfill r "max_length" "maxLength" false
  backfill r "greeting_audio_node_id" "greetingAudioNodeId" true

/-- `VoicemailNodeData` validation. -/
def validateVoicemail (d : PyDict) : VState :=
  let st : VState := ⟨[], []⟩
  let st := fldStrD d "text" "Please leave your message after the beep." (fun _ => true) st
  let st := fldIntD d "maxLength" 60 1 300 st
  let st := fldBoolD d "transcribe" true st
  let st := fldBoolD d "playBeep" true st
  let st := fldStrOpt d "greetingAudioNodeId" st
  let st := fldStrD d "mailbox" "general" (fun _ => true) st
  let st := fldStrOpt d "storageRoute" st
  let st := fldIntOpt d "max_length" st
  let st := fldStrOpt d "greeting_audio_node_id" st
  finishModel d voicemailDeclared voicemailPostInit st

/-- Declared fields of `TransferNodeData`. -/
def transferDeclared : List String :=
  ["destination", "label", "announceText", "timeout", "announce_text"]

/-- `TransferNodeData.model_post_init`. -/
def transferPostInit (r : PyDict) : PyDict :=
  backfill r "announce_text" "announceText" true

/-- `TransferNodeData` validation (`destination` is required and must match
the E.164-like pattern). -/
def validateTransfer (d : PyDict) : VState :=
  let st : VState := ⟨[], []⟩
  let st := fldStrReq d "destination" isPhoneE164 st
  let st := fldStrOpt d "label" st
  let st := fldStrOpt d "announceText" st
  let st := fldIntD d "timeout" 30 1 120 st
  let st := fldStrOpt d "announce_text" st
  finishModel d transferDeclared transferPostInit st

/-- Declared fields of `RepeatNodeData`. -/
def repeatDeclared : List String :=
  ["maxRepeats", "repeatMessage", "fallbackNodeId", "fallbackMessage",
   "replayLastPrompt", "resetOnRepeat"]

/-- `RepeatNodeData` validation (no `model_post_init`). -/
def validateRepeat (d : PyDict) : VState :=
  let st : VState := ⟨[], []⟩
  let st := fldIntD d "maxRepeats" 3 1 10 st
  let st := fldStrOpt d "repeatMessage" st
  let st := fldStrOpt d "fallbackNodeId" st
  let st := fldStrOpt d "fallbackMessage" st
  let st := fldBoolD d "replayLastPrompt" true st
  let st := fldBoolD d "resetOnRepeat" false st
  finishModel d repeatDeclared id st

/-- Declared fields of `EndNodeData`. -/
def endDeclared : List String :=
  ["text", "terminationType", "transferNumber", "voicemailBox", "callbackDelay",
   "maxCallbackAttempts", "sendSurvey", "logCall", "sendReceipt", "contactMethod",
   "reason", "transfer_number", "voicemail_box", "callback_delay",
   "max_callback_attempts", "send_survey", "log_data", "send_receipt",
   "contact_method"]

/-- `EndNodeData.model_post_init`. -/
def endPostInit (r : PyDict) : PyDict :=
  let r := backfill r "reason" "terminationType" true
  let r := backfill r "transfer_number" "transferNumber" true
  let r := backfill r "voicemail_box" "voicemailBox" true
  let r := backfill r "callback_delay" "callbackDelay" false
  let r := backfill r "max_callback_attempts" "maxCallbackAttempts" false
  let r := backfill r "send_survey" "sendSurvey" false
  let r := backfill r "log_data" "logCall" false
  let r := backfill r "send_receipt" "sendReceipt" false
  backfill r "contact_method" "contactMethod" false

/-- `EndNodeData` validation. -/
def validateEnd (d : PyDict) : VState :=
  let st : VState := ⟨[], []⟩
  let st := fldStrOpt d "text" st
  let st := fldStrD d "terminationType" "hangup"
    (fun s => ["hangup", "transfer", "voicemail", "callback"].contains s) st
  let st := fldStrOpt d "transferNumber" st
  let st := fldStrOpt d "voicemailBox" st
  let st := fldIntD d "callbackDelay" 15 1 60 st
  let st := fldIntD d "maxCallbackAttempts" 3 1 10 st
  let st := fldBoolD d "sendSurvey" false st
  let st := fldBoolD d "logCall" true st
  let st := fldBoolD d "sendReceipt" false st
  let st := fldStrD d "contactMethod" "sms"
    (fun s => ["sms", "email", "whatsapp"].contains s) st
  let st := fldStrOpt d "reason" st
  let st := fldStrOpt d "transfer_number" st
  let st := fldStrOpt d "voicemail_box" st
  let st := fldIntOpt d "callback_delay" st
  let st := fldIntOpt d "max_callback_attempts" st
  let st := fldBoolOpt d "send_survey" st
  let st := fldBoolOpt d "log_data" st
  let st := fldBoolOpt d "send_receipt" st
  let st := fldStrOpt d "contact_method" st
  finishModel d endDeclared endPostInit st

/-- Declared fields of `AIAssistantNodeData`. -/
def aiAssistantDeclared : List String :=
  ["streamUrl", "welcomeMessage", "maxDuration", "language", "voiceProfile",
   "contextData", "transferOnHumanRequest", "humanTransferDestination"]

/-- `AIAssistantNodeData` validation (`streamUrl` is required; no
`model_post_init`). -/
def validateAiAssistant (d : PyDict) : VState :=
  let st : VState := ⟨[], []⟩
  let st := fldStrReq d "streamUrl" isHttpUrl st
  let st := fldStrOpt d "welcomeMessage" st
  let st := fldIntD d "maxDuration" 300 30 1800 st
  let st := fldStrD d "language" "en-US" isLangTag st
  let st := fldStrD d "voiceProfile" "professional"
    (fun s => ["professional", "friendly", "casual"].contains s) st
  let st := fldDictOpt d "contextData" st
  let st := fldBoolD d "transferOnHumanRequest" true st
  let st := fldStrOpt d "humanTransferDestination" st
  finishModel d aiAssistantDeclared id st

/-- Display/config metadata of one node type.  The `data_schema` dict is
omitted: it is display-only metadata that no code path consults
(`validate_node_data` validates through the pydantic models instead), and the
`validation` member is `None` on every entry. -/
structure NodeConfig where
  nodeType : NodeType
  name : String
  category : String
  icon : String
  color : String
  inputs : Nat
  outputs : List String
  autoAdvance : Bool
  blocking : Bool
  collectInput : Bool

/-- The `NODE_CONFIGS` registry: nine of the fifteen `NodeType` variants have
an entry; `menu`, `speech_input`, `queue`, `sms`, `set_variable` and
`api_call` have none. -/
def NODE_CONFIGS : List (NodeType × NodeConfig) :=
  [(.greeting,
    { nodeType := .greeting, name := "Greeting/Menu", category := "interaction",
      icon := "👋", color := "#4CAF50", inputs := 1,
      outputs := ["1", "2", "3", "4", "5", "6", "7", "8", "9", "0", "*", "#",
                  "timeout", "no_match"],
      autoAdvance := false, blocking := true, collectInput := true }),
   (.audio,
    { nodeType := .audio, name := "Audio Message", category := "interaction",
      icon := "🔊", color := "#4CAF50", inputs := 1,
      outputs := ["next", "timeout"],
      autoAdvance := false, blocking := true, collectInput := false }),
   (.userInput,
    { nodeType := .userInput, name := "User Input", category := "interaction",
      icon := "⌨️", color := "#2196F3", inputs := 1,
      outputs := ["1", "2", "3", "4", "5", "6", "7", "8", "9", "0", "*", "#",
                  "timeout", "no_match"],
      autoAdvance := false, blocking := true, collectInput := true }),
   (.conditional,
    { nodeType := .conditional, name := "Conditional", category := "logic",
      icon := "🔀", color := "#FF9800", inputs := 1,
      outputs := ["true", "false"],
      autoAdvance := true, blocking := false, collectInput := false }),
   (.voicemail,
    { nodeType := .voicemail, name := "Voicemail", category := "action",
      icon := "📬", color := "#9C27B0", inputs := 1,
      outputs := ["completed", "timeout", "error"],
      autoAdvance := false, blocking := true, collectInput := false }),
   (.transfer,
    { nodeType := .transfer, name := "Transfer", category := "action",
      icon := "📞", color := "#F44336", inputs := 1,
      outputs := ["answered", "busy", "no_answer", "failed"],
      autoAdvance := false, blocking := true, collectInput := false }),
   (.repeatNode,
    { nodeType := .repeatNode, name := "Repeat", category := "logic",
      icon := "🔄", color := "#9E9E9E", inputs := 1,
      outputs := ["repeat", "fallback"],
      autoAdvance := true, blocking := false, collectInput := false }),
   (.endNode,
    { nodeType := .endNode, name := "End", category := "action",
      icon := "🏁", color := "#607D8B", inputs := 1,
      outputs := [],
      autoAdvance := false, blocking := true, collectInput := false }),
   (.aiAssistant,
    { nodeType := .aiAssistant, name := "AI Assistant", category := "service",
      icon := "🤖", color := "#673AB7", inputs := 1,
      outputs := ["completed", "transferred", "error"],
      autoAdvance := false, blocking := true, collectInput := false })]

/-- `get_node_config`: enum construction, then `NODE_CONFIGS.get`. -/
def getNodeConfig (s : String) : Option NodeConfig :=
  match NodeType.fromString s with
  | some ne => (NODE_CONFIGS.find? (fun p => decide (p.1 = ne))).map (·.2)
  | Option.none => Option.none

/-- The `data_models` table inside `validate_node_data`: pydantic model per
node-type value (the same nine types as `NODE_CONFIGS`). -/
def dataModels : List (String × (PyDict → VState)) :=
  [("greeting", validateGreeting),
   ("audio", validateAudio),
   ("input", validateUserInput),
   ("conditional", validateConditional),
   ("voicemail", validateVoicemail),
   ("transfer", validateTransfer),
   ("repeat", validateRepeat),
   ("end", validateEnd),
   ("ai_assistant", validateAiAssistant)]

/-- Result of `validate_node_data`: `{"valid": True, "data": ...}` or
`{"valid": False, "errors": [...]}`. -/
inductive VResult where
  | ok (data : PyDict)
  | fail (errors : List VError)

/-- `validate_node_data`: unknown-type check via `get_node_config`, then
pydantic validation; a type with a config but no model would pass through
unvalidated (dead for the current tables, which list the same nine types). -/
def validateNodeData (nodeType : String) (nodeData : PyDict) : VResult :=
  match getNodeConfig nodeType with
  | Option.none => .fail [.unknownType nodeType]
  | some _ =>
    match (dataModels.find? (fun kv => kv.1 == nodeType)).map (·.2) with
    | some v =>
      let st := v nodeData
      if st.errs.isEmpty then .ok st.out else .fail st.errs
    | Option.none => .ok nodeData

/-! ### Conversation memory (`src/services/ai_service.py`)

The Groq chat-completion call is an oracle: either an exception message or
the completion `(content, total_tokens)`.  Wall-clock durations are 0. -/

/-- One history entry `{role, content}`. -/
abbrev Msg := String × String

/-- `AIService.conversation_history`: per-`call_id` message lists. -/
abbrev HistMap := List (String × List Msg)

/-- Read one call's history (missing key reads as the empty list). -/
def histGet (h : HistMap) (id : String) : List Msg :=
  ((h.find? (fun kv => kv.1 == id)).map (·.2)).getD []

/-- Store one call's history (dict assignment: replace or append). -/
def histSet (h : HistMap) (id : String) (msgs : List Msg) : HistMap :=
  if (h.find? (fun kv => kv.1 == id)).isSome then
    h.map (fun kv => if kv.1 == id then (kv.1, msgs) else kv)
  else h ++ [(id, msgs)]

/-- `AIService._update_history`: append the user/assistant pair, then keep
only the last 20 messages (`history[-20:]`) when the list exceeds 20. -/
def updateHistory (h : HistMap) (callId userMsg aiMsg : String) : HistMap :=
  let cur := histGet h callId
  let upd := cur ++ [("user", userMsg), ("assistant", aiMsg)]
  let upd := if upd.length > 20 then upd.drop (upd.length - 20) else upd
  histSet h callId upd

/-- Python `s.strip()` (ASCII whitespace). -/
def pyStrip (s : String) : String :=
  String.mk (((s.data.dropWhile isPyWs).reverse.dropWhile isPyWs).reverse)

/-- `AIService.get_response`: on Groq success, strip the content, update the
history, and return the success dict; on any exception, return the failure
dict and leave the history untouched. -/
def getResponse (oracle : Except String (String × Int)) (h : HistMap)
    (userMessage callId : String) : PyDict × HistMap :=
  match oracle with
  | .ok (content, tokensUsed) =>
    let aiResponse := pyStrip content
    ([("success", .bool true),
      ("response", .str aiResponse),
      ("model", .str "llama-3.1-8b-instant"),
      ("tokens_used", .int tokensUsed),
      ("duration", .int 0)],
     updateHistory h callId userMessage aiResponse)
  | .error e =>
    ([("success", .bool false),
      ("response", .str "I'm having trouble processing that. Could you try again?"),
      ("error", .str e),
      ("duration", .int 0)],
     h)

/-- `AIService.reset_conversation`: pop one call's history, or clear all. -/
def resetConversation (h : HistMap) : Option String → HistMap
  | some id => h.filter (fun kv => kv.1 != id)
  | Option.none => []

/-! ### Pipeline orchestrator (`src/core/pipeline.py`)

The transcriber and synthesizer collaborators are oracles producing the
result records of the spec's collaborator interfaces; the reasoner stage is
the embedded `getResponse` above (as in the source, where
`AIPipeline.process_audio` calls `self.ai.get_response`).  Alongside the
result, the embedding returns the list of stages invoked, in invocation
order. -/

/-- Transcriber result (`stt_service.transcribe_audio`). -/
structure SttResult where
  success : Bool
  text : String
  language : String
  confidence : Int
  duration : Int
  error : Option String

/-- Synthesizer result (`tts_service.text_to_speech_bytes`). -/
structure TtsResult where
  success : Bool
  audio_data : List Nat
  format : String
  duration : Int
  error : Option String

/-- A pipeline stage. -/
inductive Stage where
  | stt
  | ai
  | tts
deriving DecidableEq

/-- `AIPipeline._error_response`. -/
def errorResponse (callId stage : String) (error : PyVal) : PyDict :=
  [("success", .bool false),
   ("call_id", .str callId),
   ("stage", .str stage),
   ("error", error)]

/-- Hex digit character (lowercase). -/
def hexDigitChar (n : Nat) : Char :=
  if n < 10 then Char.ofNat (48 + n) else Char.ofNat (87 + n)

/-- Python `bytes.hex()`. -/
def bytesHex (bs : List Nat) : String :=
  String.mk (bs.foldr (fun b acc => hexDigitChar (b / 16 % 16) :: hexDigitChar (b % 16) :: acc) [])

/-- `AIPipeline.process_audio`: STT → AI → TTS with stage-failure
short-circuit.  Returns (result dict, stages invoked, updated history). -/
def processAudio (sttF : List Nat → String → SttResult)
    (groq : Except String (String × Int)) (ttsF : String → TtsResult)
    (hist : HistMap) (audioData : List Nat) (callId language : String) :
    PyDict × List Stage × HistMap :=
  let sttResult := sttF audioData language
  if !sttResult.success then
    (errorResponse callId "STT failed" (.str (sttResult.error.getD "Unknown error")),
     [.stt], hist)
  else
    let userText := sttResult.text
    let aiStep := getResponse groq hist userText callId
    let aiDict := aiStep.1
    let hist1 := aiStep.2
    if !(pyTruthy (dgetD aiDict "success" .none)) then
      (errorResponse callId "AI failed" (dgetD aiDict "error" (.str "Unknown error")),
       [.stt, .ai], hist1)
    else
      let aiResponse := pyStr (dgetD aiDict "response" .none)
      let ttsResult := ttsF aiResponse
      if !ttsResult.success then
        (errorResponse callId "TTS failed" (.str (ttsResult.error.getD "Unknown error")),
         [.stt, .ai, .tts], hist1)
      else
        ([("success", .bool true),
          ("call_id", .str callId),
          ("transcription", .str userText),
          ("ai_response", .str aiResponse),
          ("audio_data", .str (bytesHex ttsResult.audio_data)),
          ("audio_format", .str ttsResult.format),
          ("total_duration", .int 0),
          ("breakdown", .dict
            [("stt_duration", .int sttResult.duration),
             ("ai_duration", dgetD aiDict "duration" (.int 0)),
             ("tts_duration", .int ttsResult.duration)]),
          ("metadata", .dict
            [("language", .str sttResult.language),
             ("confidence", .int sttResult.confidence),
             ("tokens_used", dgetD aiDict "tokens_used" (.int 0))])],
         [.stt, .ai, .tts], hist1)

/-- `AIPipeline.process_text`: AI → TTS (the fast path skipping STT). -/
def processText (groq : Except String (String × Int)) (ttsF : String → TtsResult)
    (hist : HistMap) (text callId : String) :
    PyDict × List Stage × HistMap :=
  let aiStep := getResponse groq hist text callId
  let aiDict := aiStep.1
  let hist1 := aiStep.2
  if !(pyTruthy (dgetD aiDict "success" .none)) then
    (errorResponse callId "AI failed" (dgetD aiDict "error" .none), [.ai], hist1)
  else
    let aiResponse := pyStr (dgetD aiDict "response" .none)
    let ttsResult := ttsF aiResponse
    if !ttsResult.success then
      (errorResponse callId "TTS failed"
        (match ttsResult.error with | some e => .str e | Option.none => .none),
       [.ai, .tts], hist1)
    else
      ([("success", .bool true),
        ("call_id", .str callId),
        ("ai_response", .str aiResponse),
        ("audio_data", .str (bytesHex ttsResult.audio_data)),
        ("audio_format", .str ttsResult.format),
        ("total_duration", .int 0),
        ("breakdown", .dict
          [("ai_duration", dgetD aiDict "duration" (.int 0)),
           ("tts_duration", .int ttsResult.duration)])],
       [.ai, .tts], hist1)

/-! ### Connection manager (`src/core/connection_manager.py`)

State is the manager's three keyed registries over `call_id`s; the transport
handles are owned by the manager and delivery outcomes come from a
`deliver : call_id → Bool` oracle.  Per-session wall-clock metadata
(`connected_at`, `last_activity`) is omitted; `messages_sent` is kept.
The per-session heartbeat tasks are represented by their registry keys: a
task exists (i.e. has not been cancelled) iff its `call_id` is in `tasks`. -/

/-- Connection-manager state. -/
structure ConnState where
  active : List String
  infoSent : List (String × Nat)
  tasks : List String

/-- The initial manager state. -/
def ConnState.empty : ConnState := ⟨[], [], []⟩

/-- Assign into a keyed registry (replace or append, insertion order kept). -/
def assocSet (m : List (String × Nat)) (k : String) (v : Nat) : List (String × Nat) :=
  if (m.find? (fun kv => kv.1 == k)).isSome then
    m.map (fun kv => if kv.1 == k then (kv.1, v) else kv)
  else m ++ [(k, v)]

/-- Increment a counter in a keyed registry. -/
def assocBump (m : List (String × Nat)) (k : String) : List (String × Nat) :=
  m.map (fun kv => if kv.1 == k then (kv.1, kv.2 + 1) else kv)

/-- `ConnectionManager.connect`: register the session, initialize its
metadata, start its heartbeat task (re-connecting an id replaces its
bookkeeping). -/
def connect (st : ConnState) (callId : String) : ConnState :=
  { active := if st.active.contains callId then st.active else st.active ++ [callId],
    infoSent := assocSet st.infoSent callId 0,
    tasks := if st.tasks.contains callId then st.tasks else st.tasks ++ [callId] }

/-- `ConnectionManager.disconnect`: for a registered id, cancel its heartbeat
task, then remove the session record and metadata; otherwise a no-op. -/
def disconnect (st : ConnState) (callId : String) : ConnState :=
  if st.active.contains callId then
    { active := st.active.filter (fun x => x != callId),
      infoSent := st.infoSent.filter (fun kv => kv.1 != callId),
      tasks := st.tasks.filter (fun x => x != callId) }
  else st

/-- One delivery attempt's outcome, for the event trace. -/
inductive SendEv where
  | delivered (callId : String) (msg : PyDict)
  | failed (callId : String)

/-- `ConnectionManager.send_message`: deliver to a registered session; on a
transport failure, log and `disconnect` that session (the error is absorbed —
the function always returns normally). -/
def sendMessage (deliver : String → Bool) (st : ConnState) (callId : String)
    (msg : PyDict) : ConnState × List SendEv :=
  if st.active.contains callId then
    if deliver callId then
      ({ st with infoSent := assocBump st.infoSent callId }, [.delivered callId msg])
    else
      (disconnect st callId, [.failed callId])
  else (st, [])

/-- The loop body of `broadcast` over a snapshot of the registry's keys. -/
def broadcastAux (deliver : String → Bool) (msg : PyDict) (exclude : List String) :
    List String → ConnState → ConnState × List SendEv
  | [], st => (st, [])
  | callId :: rest, st =>
    if exclude.contains callId then broadcastAux deliver msg exclude rest st
    else
      let step := sendMessage deliver st callId msg
      let tailRun := broadcastAux deliver msg exclude rest step.1
      (tailRun.1, step.2 ++ tailRun.2)

/-- `ConnectionManager.broadcast`: fan the message out over a snapshot of
the currently registered ids (`list(self.active_connections.keys())`),
skipping the exclusion set. -/
def broadcast (deliver : String → Bool) (st : ConnState) (msg : PyDict)
    (exclude : List String) : ConnState × List SendEv :=
  broadcastAux deliver msg exclude st.active st

/-- The heartbeat message (`timestamp` is wall-clock and omitted). -/
def heartbeatMsg : PyDict := [("type", .str "heartbeat")]

/-- Scheduler-level events of the manager, for temporal claims. -/
inductive CMev where
  | connect (callId : String)
  | disconnect (callId : String)
  | heartbeatFire (callId : String)
  | appSend (callId : String)
deriving DecidableEq

/-- One scheduler step.  A `heartbeatFire id` models one iteration of
`_heartbeat(id)` reaching its send: it requires the task to be alive (not
cancelled, `id ∈ tasks`) and the session to still be registered (the loop
and body both check `id in self.active_connections`); the send goes through
`send_message`.  An unsatisfiable step makes the trace invalid (`none`). -/
def cmStep (deliver : String → Bool) (st : ConnState) : CMev → Option ConnState
  | .connect id => some (connect st id)
  | .disconnect id => some (disconnect st id)
  | .heartbeatFire id =>
    if st.tasks.contains id && st.active.contains id then
      some (sendMessage deliver st id heartbeatMsg).1
    else Option.none
  | .appSend id => some (sendMessage deliver st id []).1

/-- Run a sequence of scheduler events; `some` iff the trace is valid. -/
def cmRun (deliver : String → Bool) (st : ConnState) : List CMev → Option ConnState
  | [] => some st
  | ev :: evs =>
    match cmStep deliver st ev with
    | some st1 => cmRun deliver st1 evs
    | Option.none => Option.none

/-- An operation touching the conversation-history store: one
`get_response` call (with its Groq oracle outcome) or one
`reset_conversation`. -/
inductive AIop where
  | chat (oracle : Except String (String × Int)) (userMessage callId : String)
  | reset (callId : Option String)

/-- Run a sequence of history-store operations. -/
def runAIops : HistMap → List AIop → HistMap
  | h, [] => h
  | h, .chat oracle u c :: ops => runAIops (getResponse oracle h u c).2 ops
  | h, .reset c :: ops => runAIops (resetConversation h c) ops

/-- A concrete successful synthesizer oracle, for concrete scenario runs. -/
def ttsOracle : Tts := fun _ =>
  [("success", .bool true), ("audio_data", .bytes [0, 1]), ("format", .str "mp3"),
   ("duration", .int 0)]

/-! ## Theorems settling the claims -/

/-- Round-tripping an enum member through its value recovers the member. -/
theorem NodeType.fromString_value (nt : NodeType) : NodeType.fromString nt.value = some nt := by
  cases nt <;> rfl

/-- A pattern of literal characters compiles to the literal atom
sequence. -/
theorem reFragmentAtoms_lit (cs : List Char)
    (h : cs.all (fun c => !reMetaChars.contains c) = true) :
    reFragmentAtoms cs = some (cs.map ReAtom.lit) := by
  induction cs with
  | nil => rfl
  | cons c cs ih =>
    rw [List.all_cons] at h
    have h1 := (Bool.and_eq_true_iff.mp h).1
    have h2 := (Bool.and_eq_true_iff.mp h).2
    have hcontains : reMetaChars.contains c = false := by
      cases hcc : reMetaChars.contains c
      · rfl
      · rw [hcc] at h1
        cases h1
    have hdot : (c == '.') = false := by
      cases hd : c == '.'
      · rfl
      · have hceq : c = '.' := by simpa using hd
        rw [hceq] at hcontains
        exact absurd hcontains (by decide)
    have hnotmem : c ∉ reMetaChars := fun hm => by
      have hc2 : reMetaChars.contains c = true := List.elem_iff.mpr hm
      rw [hcontains] at hc2
      cases hc2
    simp [reFragmentAtoms, hdot, hcontains, hnotmem, ih h2]

/-- A literal atom sequence matches at the start iff the pattern is a
prefix. -/
theorem reAtomsMatchHere_lit (pat : List Char) :
    ∀ t : List Char, reAtomsMatchHere (pat.map ReAtom.lit) t = pat.isPrefixOf t := by
  induction pat with
  | nil => intro t; cases t <;> rfl
  | cons c cs ih =>
    intro t
    cases t with
    | nil => rfl
    | cons x xs => simp [reAtomsMatchHere, List.isPrefixOf, ih]

/-- Searching a literal atom sequence is exactly substring occurrence. -/
theorem reSearchAtoms_lit (pat s : String) :
    reSearchAtoms (pat.data.map ReAtom.lit) s = strContains s pat := by
  unfold reSearchAtoms strContains
  congr 1
  funext t
  exact reAtomsMatchHere_lit pat.data t

set_option maxRecDepth 10000 in
/-- C4 counterexample: `evaluate_condition` does not catch every exception,
and its `regex` operator is not a substring search.  The pattern `"."`
matches `"x"` (a wildcard match, though `"."` is not a substring of
`"x"`); the malformed pattern `"("` raises `re.error`, which
`except (ValueError, TypeError)` does not catch; and a `greater_than`
operand of `10^400` makes `float()` raise an uncaught `OverflowError`. -/
theorem C4_counterexample :
    evaluateCondition (.str "x") "regex" (.str ".") = .ok true ∧
    strContains "x" "." = false ∧
    evaluateCondition (.str "x") "regex" (.str "(") = .error PyExc.reError ∧
    evaluateCondition (.int (10 ^ 400)) "greater_than" (.str "1") =
      .error PyExc.overflowError :=
  ⟨rfl, by decide, rfl, rfl⟩

set_option maxRecDepth 10000 in
/-- C4 (amended).  `evaluate_condition` behaves per operator as:
`equals`/`not_equals`/`contains` compare as strings; `greater_than`/
`less_than` coerce both operands with `float(...)`, return `false` when a
coercion raises the caught `ValueError`/`TypeError` (non-numeric strings,
`None`, containers), propagate the uncaught `OverflowError` for an int
beyond binary64 range, and otherwise compare the binary64 values;
`exists` is true iff the value is bound (not `None`) and non-empty;
`regex` performs a regex search (`re.search`) of the expected-value
pattern within the actual value — a plain substring search exactly for
metacharacter-free patterns, while `.` matches any non-newline character
and a malformed pattern raises the uncaught `re.error`.  Only `ValueError`
and `TypeError` are caught; the three specified instances hold. -/
theorem C4_evaluate_condition :
    (∀ a e : PyVal, evaluateCondition a "equals" e = .ok (pyStr a == pyStr e)) ∧
    (∀ a e : PyVal, evaluateCondition a "not_equals" e = .ok (pyStr a != pyStr e)) ∧
    (∀ a e : PyVal, evaluateCondition a "contains" e =
      .ok (strContains (pyStr a) (pyStr e))) ∧
    (∀ a e : PyVal, evaluateCondition a "exists" e =
      .ok (!isNoneV a && !pyEqStr a "")) ∧
    (∀ a e : PyVal, evaluateCondition a "greater_than" e =
      (match pyFloatOfVal a, pyFloatOfVal e with
       | .ok x, .ok y => .ok (PyFloat.gt x y)
       | .error .valueError, _ => .ok false
       | .error .typeError, _ => .ok false
       | .error ex, _ => .error ex
       | .ok _, .error .valueError => .ok false
       | .ok _, .error .typeError => .ok false
       | .ok _, .error ex => .error ex)) ∧
    (∀ a e : PyVal, evaluateCondition a "less_than" e =
      (match pyFloatOfVal a, pyFloatOfVal e with
       | .ok x, .ok y => .ok (PyFloat.lt x y)
       | .error .valueError, _ => .ok false
       | .error .typeError, _ => .ok false
       | .error ex, _ => .error ex
       | .ok _, .error .valueError => .ok false
       | .ok _, .error .typeError => .ok false
       | .ok _, .error ex => .error ex)) ∧
    (∀ a e : PyVal, (pyStr e).data.all (fun c => !reMetaChars.contains c) = true →
      evaluateCondition a "regex" e = .ok (strContains (pyStr a) (pyStr e))) ∧
    evaluateCondition (.str "x") "regex" (.str ".") = .ok true ∧
    evaluateCondition (.str "\n") "regex" (.str ".") = .ok false ∧
    evaluateCondition (.str "x") "regex" (.str "(") = .error PyExc.reError ∧
    evaluateCondition (.int (10 ^ 400)) "greater_than" (.str "1") =
      .error PyExc.overflowError ∧
    evaluateCondition (.str "5") "equals" (.str "5") = .ok true ∧
    evaluateCondition (.str "abc") "greater_than" (.str "1") = .ok false ∧
    evaluateCondition .none "exists" (.str "") = .ok false := by
  refine ⟨fun a e => rfl, fun a e => rfl, fun a e => rfl, fun a e => rfl, ?_, ?_, ?_,
    rfl, rfl, rfl, rfl, rfl, rfl, rfl⟩
  · intro a e
    unfold evaluateCondition evaluateConditionExc
    cases pyFloatOfVal a with
    | ok x =>
      cases pyFloatOfVal e with
      | ok y => rfl
      | error ex => cases ex <;> rfl
    | error ea => cases ea <;> rfl
  · intro a e
    unfold evaluateCondition evaluateConditionExc
    cases pyFloatOfVal a with
    | ok x =>
      cases pyFloatOfVal e with
      | ok y => rfl
      | error ex => cases ex <;> rfl
    | error ea => cases ea <;> rfl
  · intro a e hlit
    have hfrag : reClassify (pyStr e).data =
        .fragment ((pyStr e).data.map ReAtom.lit) := by
      unfold reClassify
      rw [reFragmentAtoms_lit (pyStr e).data hlit]
    have hexc : evaluateConditionExc a "regex" e = reSearch (pyStr e) (pyStr a) := rfl
    have hok : reSearch (pyStr e) (pyStr a) = .ok (strContains (pyStr a) (pyStr e)) := by
      unfold reSearch
      rw [hfrag]
      show Except.ok (reSearchAtoms (List.map ReAtom.lit (pyStr e).data) (pyStr a)) =
        Except.ok (strContains (pyStr a) (pyStr e))
      rw [reSearchAtoms_lit]
    unfold evaluateCondition
    rw [hexc, hok]

/-- C4 witness: the literal-pattern regex clause applied at the concrete
metacharacter-free pattern `"b"` against `"abc"`. -/
theorem C4_witness :
    evaluateCondition (.str "abc") "regex" (.str "b") = .ok (strContains "abc" "b") :=
  C4_evaluate_condition.2.2.2.2.2.2.1 (.str "abc") (.str "b") (by decide)

/-- C10.  For every node-type string outside the closed variant set,
`execute_workflow_node` returns the structured `{success: False,
action: "error"}` result (with the invalid input echoed) instead of
raising; in particular for `"bogus"`. -/
theorem C10_unknown_node_type :
    (∀ (tts : Tts) (s : String) (nodeData ctx : PyDict),
        s ∉ allNodeTypes.map NodeType.value →
        executeWorkflowNode tts s nodeData ctx =
          [("success", .bool false), ("error", .str ("Unknown node type: " ++ s)),
           ("action", .str "error")]) ∧
    executeWorkflowNode ttsOracle "bogus" [] [] =
      [("success", .bool false), ("error", .str "Unknown node type: bogus"),
       ("action", .str "error")] := by
  constructor
  · intro tts s nodeData ctx hs
    have hfind : NodeType.fromString s = Option.none := by
      apply List.find?_eq_none.mpr
      intro nt hnt hval
      exact hs (List.mem_map.mpr ⟨nt, hnt, by simpa using hval⟩)
    simp [executeWorkflowNode, hfind]
  · rfl

/-- C10 witness: the general branch applied at the concrete input `"bogus"`. -/
theorem C10_witness :
    executeWorkflowNode ttsOracle "bogus" [("x", .int 1)] [] =
      [("success", .bool false), ("error", .str "Unknown node type: bogus"),
       ("action", .str "error")] :=
  C10_unknown_node_type.1 ttsOracle "bogus" [("x", .int 1)] [] (by decide)

/-- C1 counterexample: `execute_workflow_node("transfer",
{"destination": "not-a-number"}, {})` does not fail at a validation stage;
although `validate_node_data` would reject that data, the engine never
consults it — the transfer handler runs and returns `success: True`,
`action: "transfer_call"`, echoing the invalid destination. -/
theorem C1_counterexample :
    validateNodeData "transfer" [("destination", .str "not-a-number")] =
      .fail [.invalid "destination"] ∧
    executeWorkflowNode ttsOracle "transfer" [("destination", .str "not-a-number")] [] =
      [("success", .bool true), ("action", .str "transfer_call"),
       ("destination", .str "not-a-number"), ("prompt_audio", .none),
       ("timeout", .int 30), ("next_action", .str "initiate_transfer")] :=
  ⟨rfl, rfl⟩

/-- C1 (amended).  `execute_workflow_node` performs no validation at all:
for every member of the closed variant set it dispatches `handle_node` on
the raw `node_data`, and in particular for `"transfer"` the result is
always the transfer handler's output, whatever the data.  Validation
happens only when `validate_node_data` is called separately. -/
theorem C1_no_validation :
    (∀ (tts : Tts) (nt : NodeType) (nodeData ctx : PyDict),
        executeWorkflowNode tts nt.value nodeData ctx = handleNode tts nt nodeData ctx) ∧
    (∀ (tts : Tts) (nodeData ctx : PyDict),
        executeWorkflowNode tts "transfer" nodeData ctx = handleTransfer tts nodeData ctx) := by
  constructor
  · intro tts nt nodeData ctx
    simp [executeWorkflowNode, NodeType.fromString_value]
  · intro tts nodeData ctx
    rfl

/-- C3 counterexample: `"input"` is a recognized variant
(`NodeType.USER_INPUT`), yet the attribute lookup
`getattr(self, "handle_input")` finds nothing — the handler table has
`handle_user_input`, not `handle_input` — so `handle_node` takes its
unknown-node-type error branch. -/
theorem C3_counterexample :
    NodeType.fromString "input" = some NodeType.userInput ∧
    handlerMethods.find? (fun kv => kv.1 == "handle_" ++ NodeType.userInput.value) =
      Option.none ∧
    handleNode ttsOracle NodeType.userInput [] [] =
      [("success", .bool false),
       ("error", .str "Unknown node type: NodeType.USER_INPUT"),
       ("action", .str "error")] :=
  ⟨rfl, rfl, rfl⟩

/-- C3 (amended).  Dispatch is runtime name lookup
(`getattr(self, "handle_" + value)`), not a static table.  It reaches the
dedicated handler for ten of the fifteen variants, but for the recognized
variants `input`, `queue`, `sms`, `set_variable` and `api_call` no matching
`handle_*` attribute exists and the unknown-node-type error branch of
`handle_node` is reached (in particular `handle_user_input` is silently
missed for `"input"`). -/
theorem C3_dispatch :
    (∀ tts nodeData ctx, handleNode tts .greeting nodeData ctx = handleGreeting tts nodeData ctx) ∧
    (∀ tts nodeData ctx, handleNode tts .audio nodeData ctx = handleAudio tts nodeData ctx) ∧
    (∀ tts nodeData ctx, handleNode tts .menu nodeData ctx = handleMenu tts nodeData ctx) ∧
    (∀ tts nodeData ctx, handleNode tts .speechInput nodeData ctx = handleSpeechInput tts nodeData ctx) ∧
    (∀ tts nodeData ctx, handleNode tts .conditional nodeData ctx = handleConditional tts nodeData ctx) ∧
    (∀ tts nodeData ctx, handleNode tts .voicemail nodeData ctx = handleVoicemail tts nodeData ctx) ∧
    (∀ tts nodeData ctx, handleNode tts .transfer nodeData ctx = handleTransfer tts nodeData ctx) ∧
    (∀ tts nodeData ctx, handleNode tts .repeatNode nodeData ctx = handleRepeat tts nodeData ctx) ∧
    (∀ tts nodeData ctx, handleNode tts .endNode nodeData ctx = handleEnd tts nodeData ctx) ∧
    (∀ tts nodeData ctx, handleNode tts .aiAssistant nodeData ctx = handleAiAssistant tts nodeData ctx) ∧
    (∀ nt : NodeType,
        nt ∈ ([.userInput, .queue, .sms, .setVariable, .apiCall] : List NodeType) →
        ∀ tts nodeData ctx, handleNode tts nt nodeData ctx =
          [("success", .bool false),
           ("error", .str ("Unknown node type: " ++ nt.pyName)),
           ("action", .str "error")]) := by
  refine ⟨fun t d c => rfl, fun t d c => rfl, fun t d c => rfl, fun t d c => rfl,
    fun t d c => rfl, fun t d c => rfl, fun t d c => rfl, fun t d c => rfl,
    fun t d c => rfl, fun t d c => rfl, ?_⟩
  intro nt hnt tts nodeData ctx
  fin_cases hnt <;> rfl

/-- C3 witness: the unknown-branch clause applied at the concrete variant
`queue`. -/
theorem C3_witness :
    handleNode ttsOracle NodeType.queue [] [] =
      [("success", .bool false),
       ("error", .str "Unknown node type: NodeType.QUEUE"),
       ("action", .str "error")] :=
  C3_dispatch.2.2.2.2.2.2.2.2.2.2 NodeType.queue (by decide) ttsOracle [] []

/-- C2 counterexample: `"menu"` is a declared variant of the closed set, yet
`validate_node_data("menu", {})` fails with an unknown-type error: six
declared variants (`menu`, `speech_input`, `queue`, `sms`, `set_variable`,
`api_call`) have no `NODE_CONFIGS` entry and no data-model contract. -/
theorem C2_counterexample :
    NodeType.fromString "menu" = some NodeType.menu ∧
    validateNodeData "menu" [] = .fail [.unknownType "menu"] :=
  ⟨rfl, rfl⟩

/-- C2 (amended).  Only nine of the fifteen declared variants have a
NodeConfig, each with exactly one entry in `NODE_CONFIGS` and exactly one
data-model contract; for those nine, `validate_node_data(type, {})` either
succeeds with the documented defaults or fails listing exactly the missing
required fields (`destination` for transfer, `streamUrl` for ai_assistant);
for the six other declared variants (`menu`, `speech_input`, `queue`, `sms`,
`set_variable`, `api_call`) it fails with an unknown-type error. -/
theorem C2_validate_empty :
    NODE_CONFIGS.map (·.1) =
      [.greeting, .audio, .userInput, .conditional, .voicemail, .transfer,
       .repeatNode, .endNode, .aiAssistant] ∧
    (NODE_CONFIGS.map (·.1)).Nodup ∧
    dataModels.map (·.1) =
      ["greeting", "audio", "input", "conditional", "voicemail", "transfer",
       "repeat", "end", "ai_assistant"] ∧
    (dataModels.map (·.1)).Nodup ∧
    validateNodeData "greeting" [] = .ok
      [("text", .str "Welcome to our service."), ("voice", .str "alice"),
       ("language", .str "en-US"), ("audio_url", .none), ("menu_options", .list []),
       ("timeout", .int 10), ("max_retries", .int 3)] ∧
    validateNodeData "audio" [] = .ok
      [("mode", .str "tts"), ("messageText", .str "Welcome to our service."),
       ("voice", .str "en-GB-SoniaNeural"), ("language", .str "en-GB"),
       ("audioUrl", .none), ("audioAssetId", .none), ("afterPlayback", .str "next"),
       ("timeoutSeconds", .int 10), ("maxRetries", .int 3),
       ("fallbackAudioNodeId", .none), ("promptKey", .none),
       ("text", .str "Welcome to our service."), ("timeout", .int 10),
       ("max_retries", .int 3), ("audio_url", .none), ("audio_asset_id", .none)] ∧
    validateNodeData "input" [] = .ok
      [("digit", .str "1"), ("label", .str ""), ("action", .str "transfer"),
       ("destination", .none), ("promptAudioNodeId", .none),
       ("invalidAudioNodeId", .none), ("timeoutAudioNodeId", .none),
       ("maxAttempts", .int 3), ("timeoutSeconds", .int 10), ("timeout", .int 10),
       ("max_attempts", .int 3), ("prompt_audio_node_id", .none),
       ("invalid_audio_node_id", .none), ("timeout_audio_node_id", .none)] ∧
    validateNodeData "conditional" [] = .ok
      [("condition", .str "business_hours"), ("variable", .none),
       ("operator", .str "equals"), ("value", .none), ("truePath", .none),
       ("falsePath", .none), ("true_path", .none), ("false_path", .none)] ∧
    validateNodeData "voicemail" [] = .ok
      [("text", .str "Please leave your message after the beep."),
       ("maxLength", .int 60), ("transcribe", .bool true), ("playBeep", .bool true),
       ("greetingAudioNodeId", .none), ("mailbox", .str "general"),
       ("storageRoute", .none), ("max_length", .int 60),
       ("greeting_audio_node_id", .none)] ∧
    validateNodeData "transfer" [] = .fail [.missing "destination"] ∧
    validateNodeData "repeat" [] = .ok
      [("maxRepeats", .int 3), ("repeatMessage", .none), ("fallbackNodeId", .none),
       ("fallbackMessage", .none), ("replayLastPrompt", .bool true),
       ("resetOnRepeat", .bool false)] ∧
    validateNodeData "end" [] = .ok
      [("text", .none), ("terminationType", .str "hangup"), ("transferNumber", .none),
       ("voicemailBox", .none), ("callbackDelay", .int 15),
       ("maxCallbackAttempts", .int 3), ("sendSurvey", .bool false),
       ("logCall", .bool true), ("sendReceipt", .bool false),
       ("contactMethod", .str "sms"), ("reason", .str "hangup"),
       ("transfer_number", .none), ("voicemail_box", .none),
       ("callback_delay", .int 15), ("max_callback_attempts", .int 3),
       ("send_survey", .bool false), ("log_data", .bool true),
       ("send_receipt", .bool false), ("contact_method", .str "sms")] ∧
    validateNodeData "ai_assistant" [] = .fail [.missing "streamUrl"] ∧
    validateNodeData "menu" [] = .fail [.unknownType "menu"] ∧
    validateNodeData "speech_input" [] = .fail [.unknownType "speech_input"] ∧
    validateNodeData "queue" [] = .fail [.unknownType "queue"] ∧
    validateNodeData "sms" [] = .fail [.unknownType "sms"] ∧
    validateNodeData "set_variable" [] = .fail [.unknownType "set_variable"] ∧
    validateNodeData "api_call" [] = .fail [.unknownType "api_call"] := by
  refine ⟨rfl, by decide, rfl, by decide, rfl, rfl, rfl, rfl, rfl, rfl, rfl, rfl,
    rfl, rfl, rfl, rfl, rfl, rfl, rfl⟩

/-- C9 counterexample: the record produced by successful validation of an
`audio` node is not one canonical internal record — it carries the
camel-case and snake-case variants of the same fields in parallel
(`messageText`/`text`, `timeoutSeconds`/`timeout`, `maxRetries`/
`max_retries`, `audioUrl`/`audio_url`, `audioAssetId`/`audio_asset_id`),
as the empty-input run shows. -/
theorem C9_counterexample :
    validateNodeData "audio" [] = .ok
      [("mode", .str "tts"), ("messageText", .str "Welcome to our service."),
       ("voice", .str "en-GB-SoniaNeural"), ("language", .str "en-GB"),
       ("audioUrl", .none), ("audioAssetId", .none), ("afterPlayback", .str "next"),
       ("timeoutSeconds", .int 10), ("maxRetries", .int 3),
       ("fallbackAudioNodeId", .none), ("promptKey", .none),
       ("text", .str "Welcome to our service."), ("timeout", .int 10),
       ("max_retries", .int 3), ("audio_url", .none), ("audio_asset_id", .none)] :=
  rfl

/-- C9 (amended).  For the dual-convention node types, validation does not
normalize to a single canonical record: the successful `"data"` record keeps
both conventions' fields in parallel, with the snake-case field backfilled
from the camel-case one by `model_post_init` (shown here for an `audio` node
given only `messageText`, and for the `input` node's paired timeout
fields). -/
theorem C9_parallel_fields :
    (∃ r, validateNodeData "audio" [("messageText", PyVal.str "Hi")] = .ok r ∧
       dget r "messageText" = some (.str "Hi") ∧
       dget r "text" = some (.str "Hi") ∧
       dget r "timeoutSeconds" = some (.int 10) ∧
       dget r "timeout" = some (.int 10) ∧
       dget r "maxRetries" = some (.int 3) ∧
       dget r "max_retries" = some (.int 3)) ∧
    (∃ r, validateNodeData "input" [] = .ok r ∧
       dget r "timeoutSeconds" = some (.int 10) ∧
       dget r "timeout" = some (.int 10) ∧
       dget r "maxAttempts" = some (.int 3) ∧
       dget r "max_attempts" = some (.int 3)) := by
  refine ⟨⟨_, rfl, rfl, rfl, rfl, rfl, rfl, rfl⟩, ⟨_, rfl, rfl, rfl, rfl, rfl⟩⟩

/-- Shape of `process_audio` when the transcriber reports failure. -/
theorem processAudio_stt_fail (sttF : List Nat → String → SttResult)
    (groq : Except String (String × Int)) (ttsF : String → TtsResult)
    (hist : HistMap) (audioData : List Nat) (callId lang : String)
    (h : (sttF audioData lang).success = false) :
    processAudio sttF groq ttsF hist audioData callId lang =
      (errorResponse callId "STT failed"
         (.str ((sttF audioData lang).error.getD "Unknown error")),
       [Stage.stt], hist) := by
  simp [processAudio, h]

/-- Shape of `process_audio` when STT succeeds but the Groq call raises. -/
theorem processAudio_ai_fail (sttF : List Nat → String → SttResult) (e : String)
    (ttsF : String → TtsResult) (hist : HistMap) (audioData : List Nat)
    (callId lang : String) (h : (sttF audioData lang).success = true) :
    processAudio sttF (.error e) ttsF hist audioData callId lang =
      (errorResponse callId "AI failed" (.str e), [Stage.stt, Stage.ai], hist) := by
  simp [processAudio, h, getResponse, dgetD, dget, pyTruthy]

/-- Shape of `process_audio` when STT and AI succeed but TTS fails.  Note
the history has already been extended by the AI stage. -/
theorem processAudio_tts_fail (sttF : List Nat → String → SttResult)
    (content : String) (tok : Int) (ttsF : String → TtsResult) (hist : HistMap)
    (audioData : List Nat) (callId lang : String)
    (h1 : (sttF audioData lang).success = true)
    (h2 : (ttsF (pyStrip content)).success = false) :
    processAudio sttF (.ok (content, tok)) ttsF hist audioData callId lang =
      (errorResponse callId "TTS failed"
         (.str ((ttsF (pyStrip content)).error.getD "Unknown error")),
       [Stage.stt, Stage.ai, Stage.tts],
       updateHistory hist callId (sttF audioData lang).text (pyStrip content)) := by
  simp [processAudio, h1, h2, getResponse, dgetD, dget, pyTruthy, pyStr]

/-- Trace of `process_audio` on the all-success path. -/
theorem processAudio_success_trace (sttF : List Nat → String → SttResult)
    (content : String) (tok : Int) (ttsF : String → TtsResult) (hist : HistMap)
    (audioData : List Nat) (callId lang : String)
    (h1 : (sttF audioData lang).success = true)
    (h2 : (ttsF (pyStrip content)).success = true) :
    (processAudio sttF (.ok (content, tok)) ttsF hist audioData callId lang).2.1 =
      [Stage.stt, Stage.ai, Stage.tts] := by
  simp [processAudio, h1, h2, getResponse, dgetD, dget, pyTruthy, pyStr]

/-- Shape of `process_text` when the Groq call raises. -/
theorem processText_ai_fail (e : String) (ttsF : String → TtsResult)
    (hist : HistMap) (text callId : String) :
    processText (.error e) ttsF hist text callId =
      (errorResponse callId "AI failed" (.str e), [Stage.ai], hist) := by
  simp [processText, getResponse, dgetD, dget, pyTruthy]

/-- Trace of `process_text` when the AI stage succeeds. -/
theorem processText_trace_ai_ok (content : String) (tok : Int)
    (ttsF : String → TtsResult) (hist : HistMap) (text callId : String) :
    (processText (.ok (content, tok)) ttsF hist text callId).2.1 =
      [Stage.ai, Stage.tts] := by
  by_cases h2 : (ttsF (pyStrip content)).success = true
  · simp [processText, getResponse, dgetD, dget, pyTruthy, pyStr, h2]
  · simp only [Bool.not_eq_true] at h2
    simp [processText, getResponse, dgetD, dget, pyTruthy, pyStr, h2]

/-- C5.  In both pipeline entry points the stages run in the fixed order
transcribe → reason → synthesize, each invoked at most once (the invocation
trace is always a sublist of `[stt, ai, tts]`); a non-success stage result
makes the orchestrator return the tagged failure for that stage immediately,
and no later stage is invoked — in particular, on transcriber failure the
result (and the untouched history) is determined independently of the
reasoner and synthesizer oracles, which therefore are never consulted. -/
theorem C5_pipeline_stages :
    (∀ sttF groq ttsF hist audioData callId lang,
        (processAudio sttF groq ttsF hist audioData callId lang).2.1.Sublist
          [Stage.stt, Stage.ai, Stage.tts]) ∧
    (∀ groq ttsF hist text callId,
        (processText groq ttsF hist text callId).2.1.Sublist
          [Stage.stt, Stage.ai, Stage.tts]) ∧
    (∀ sttF groq ttsF hist audioData callId lang,
        (sttF audioData lang).success = false →
        processAudio sttF groq ttsF hist audioData callId lang =
          (errorResponse callId "STT failed"
             (.str ((sttF audioData lang).error.getD "Unknown error")),
           [Stage.stt], hist)) ∧
    (∀ sttF e ttsF hist audioData callId lang,
        (sttF audioData lang).success = true →
        processAudio sttF (.error e) ttsF hist audioData callId lang =
          (errorResponse callId "AI failed" (.str e), [Stage.stt, Stage.ai], hist)) ∧
    (∀ sttF content tok ttsF hist audioData callId lang,
        (sttF audioData lang).success = true →
        (ttsF (pyStrip content)).success = false →
        (processAudio sttF (.ok (content, tok)) ttsF hist audioData callId lang).1 =
          errorResponse callId "TTS failed"
            (.str ((ttsF (pyStrip content)).error.getD "Unknown error")) ∧
        (processAudio sttF (.ok (content, tok)) ttsF hist audioData callId lang).2.1 =
          [Stage.stt, Stage.ai, Stage.tts]) ∧
    (∀ e ttsF hist text callId,
        processText (.error e) ttsF hist text callId =
          (errorResponse callId "AI failed" (.str e), [Stage.ai], hist)) := by
  refine ⟨?_, ?_, processAudio_stt_fail, processAudio_ai_fail, ?_, processText_ai_fail⟩
  · intro sttF groq ttsF hist audioData callId lang
    by_cases h1 : (sttF audioData lang).success = true
    · cases groq with
      | error e =>
        rw [processAudio_ai_fail sttF e ttsF hist audioData callId lang h1]
        show List.Sublist [Stage.stt, Stage.ai] [Stage.stt, Stage.ai, Stage.tts]
        decide
      | ok pr =>
        obtain ⟨content, tok⟩ := pr
        by_cases h2 : (ttsF (pyStrip content)).success = true
        · rw [processAudio_success_trace sttF content tok ttsF hist audioData callId lang h1 h2]
        · simp only [Bool.not_eq_true] at h2
          rw [processAudio_tts_fail sttF content tok ttsF hist audioData callId lang h1 h2]
    · simp only [Bool.not_eq_true] at h1
      rw [processAudio_stt_fail sttF groq ttsF hist audioData callId lang h1]
      show List.Sublist [Stage.stt] [Stage.stt, Stage.ai, Stage.tts]
      decide
  · intro groq ttsF hist text callId
    cases groq with
    | error e =>
      rw [processText_ai_fail e ttsF hist text callId]
      show List.Sublist [Stage.ai] [Stage.stt, Stage.ai, Stage.tts]
      decide
    | ok pr =>
      obtain ⟨content, tok⟩ := pr
      rw [processText_trace_ai_ok content tok ttsF hist text callId]
      show List.Sublist [Stage.ai, Stage.tts] [Stage.stt, Stage.ai, Stage.tts]
      decide
  · intro sttF content tok ttsF hist audioData callId lang h1 h2
    rw [processAudio_tts_fail sttF content tok ttsF hist audioData callId lang h1 h2]
    exact ⟨rfl, rfl⟩

/-- C5 witness: the STT-failure clause at a concrete failing transcriber —
the result is the tagged `"STT failed"` response, the trace stops at the
transcription stage, and the history is untouched. -/
theorem C5_witness :
    processAudio (fun _ _ => ⟨false, "", "en", 0, 0, some "mic error"⟩)
        (.ok ("hi", 1)) (fun _ => ⟨true, [], "mp3", 0, Option.none⟩)
        [] [0] "c1" "en" =
      (errorResponse "c1" "STT failed" (.str "mic error"), [Stage.stt], []) :=
  C5_pipeline_stages.2.2.1 (fun _ _ => ⟨false, "", "en", 0, 0, some "mic error"⟩)
    (.ok ("hi", 1)) (fun _ => ⟨true, [], "mp3", 0, Option.none⟩) [] [0] "c1" "en" rfl

/-- Replacing the value stored under `id` rewrites exactly the `id` entry of
the association list. -/
theorem find?_mapReplace (h : HistMap) (id : String) (msgs : List Msg) :
    ((h.map (fun kv => if kv.1 == id then (kv.1, msgs) else kv)).find?
        (fun kv => kv.1 == id)) =
      (h.find? (fun kv => kv.1 == id)).map (fun kv => (kv.1, msgs)) := by
  induction h with
  | nil => rfl
  | cons kv t ih =>
    by_cases hk : (kv.1 == id) = true
    · have hkid : kv.1 = id := by simpa using hk
      simp [List.find?_cons, hkid, -List.find?_map]
    · have hkid : ¬(kv.1 = id) := by simpa using hk
      simp [List.find?_cons, hkid, -List.find?_map]
      simpa using ih

/-- Replacing the value stored under `id` leaves lookups of other keys
unchanged. -/
theorem find?_mapReplace_ne (h : HistMap) (id j : String) (msgs : List Msg)
    (hne : j ≠ id) :
    ((h.map (fun kv => if kv.1 == id then (kv.1, msgs) else kv)).find?
        (fun kv => kv.1 == j)) =
      h.find? (fun kv => kv.1 == j) := by
  induction h with
  | nil => rfl
  | cons kv t ih =>
    by_cases hk : (kv.1 == id) = true
    · have hkid : kv.1 = id := by simpa using hk
      have hkj : (kv.1 == j) = false := by
        refine beq_eq_false_iff_ne.mpr ?_
        rw [hkid]
        exact fun hcon => hne hcon.symm
      simp only [List.map_cons, if_pos hk, List.find?_cons, hkj, ih]
    · simp only [List.map_cons, if_neg hk]
      by_cases hj : (kv.1 == j) = true
      · simp only [List.find?_cons, hj]
      · have hj' : (kv.1 == j) = false := by simpa using hj
        simp only [List.find?_cons, hj', ih]

/-- Reading back the key just stored. -/
theorem histGet_histSet_self (h : HistMap) (id : String) (msgs : List Msg) :
    histGet (histSet h id msgs) id = msgs := by
  unfold histGet histSet
  by_cases hp : (h.find? (fun kv => kv.1 == id)).isSome
  · rw [if_pos hp, find?_mapReplace]
    obtain ⟨kv, hkv⟩ := Option.isSome_iff_exists.mp hp
    rw [hkv]
    rfl
  · rw [if_neg hp, List.find?_append,
      Option.not_isSome_iff_eq_none.mp hp]
    simp [List.find?_cons]

/-- Storing under one key leaves other keys' histories unchanged. -/
theorem histGet_histSet_ne (h : HistMap) (id j : String) (msgs : List Msg)
    (hne : j ≠ id) :
    histGet (histSet h id msgs) j = histGet h j := by
  unfold histGet histSet
  by_cases hp : (h.find? (fun kv => kv.1 == id)).isSome
  · rw [if_pos hp, find?_mapReplace_ne h id j msgs hne]
  · rw [if_neg hp, List.find?_append]
    have hji : (id == j) = false := beq_eq_false_iff_ne.mpr (fun hcon => hne hcon.symm)
    have hsingle : ([(id, msgs)].find? (fun kv => kv.1 == j)) = Option.none := by
      simp only [List.find?_cons, hji, List.find?_nil]
    rw [hsingle]
    cases h.find? (fun kv => kv.1 == j) <;> rfl

/-- One `_update_history` call leaves the updated call's history at 20
entries or fewer, whatever its previous length. -/
theorem updateHistory_len_le (h : HistMap) (c u a : String) :
    (histGet (updateHistory h c u a) c).length ≤ 20 := by
  unfold updateHistory
  rw [histGet_histSet_self]
  by_cases hl : (histGet h c ++ [("user", u), ("assistant", a)]).length > 20
  · simp only [if_pos hl, List.length_drop]
    omega
  · simp only [if_neg hl]
    omega

/-- `_update_history` touches only the updated call's history. -/
theorem histGet_updateHistory_ne (h : HistMap) (c u a j : String) (hne : j ≠ c) :
    histGet (updateHistory h c u a) j = histGet h j := by
  unfold updateHistory
  rw [histGet_histSet_ne _ _ _ _ hne]

/-- Filtering out one key empties that key's lookup. -/
theorem find?_filter_self (h : HistMap) (id : String) :
    (h.filter (fun kv => kv.1 != id)).find? (fun kv => kv.1 == id) = Option.none := by
  apply List.find?_eq_none.mpr
  intro kv hkv
  have h2 := (List.mem_filter.mp hkv).2
  simp only [bne_iff_ne, ne_eq] at h2
  simp [h2]

/-- Filtering out one key preserves other keys' lookups. -/
theorem find?_filter_ne (h : HistMap) (id j : String) (hne : j ≠ id) :
    (h.filter (fun kv => kv.1 != id)).find? (fun kv => kv.1 == j) =
      h.find? (fun kv => kv.1 == j) := by
  induction h with
  | nil => rfl
  | cons kv t ih =>
    by_cases hj : kv.1 == j
    · have hid : (kv.1 != id) = true := by
        have : kv.1 = j := by simpa using hj
        simp [this, hne]
      simp [List.filter_cons, hid, List.find?_cons, hj]
    · by_cases hid : (kv.1 != id) = true
      · simp [List.filter_cons, hid, List.find?_cons, hj, ih]
      · simp [List.filter_cons, hid, List.find?_cons, hj, ih]

/-- `reset_conversation` either preserves a call's history or empties it. -/
theorem histGet_reset (h : HistMap) (c : Option String) (j : String) :
    histGet (resetConversation h c) j = histGet h j ∨
      histGet (resetConversation h c) j = [] := by
  cases c with
  | none => right; rfl
  | some id =>
    by_cases hj : j = id
    · right
      subst hj
      unfold histGet resetConversation
      rw [find?_filter_self]
      rfl
    · left
      unfold histGet resetConversation
      rw [find?_filter_ne h id j hj]

/-- Any sequence of `get_response` / `reset_conversation` operations keeps
every stored history at 20 entries or fewer. -/
theorem runAIops_bound (ops : List AIop) :
    ∀ h : HistMap, (∀ id, (histGet h id).length ≤ 20) →
      ∀ id, (histGet (runAIops h ops) id).length ≤ 20 := by
  induction ops with
  | nil => exact fun h hh => hh
  | cons op rest ih =>
    intro h hh id
    cases op with
    | chat oracle u c =>
      refine ih _ (fun j => ?_) id
      cases oracle with
      | ok pr =>
        obtain ⟨content, tok⟩ := pr
        by_cases hj : j = c
        · subst hj
          exact updateHistory_len_le h j u (pyStrip content)
        · show (histGet (updateHistory h c u (pyStrip content)) j).length ≤ 20
          rw [histGet_updateHistory_ne h c u (pyStrip content) j hj]
          exact hh j
      | error e => exact hh j
    | reset c =>
      refine ih _ (fun j => ?_) id
      rcases histGet_reset h c j with heq | heq <;> rw [heq]
      · exact hh j
      · simp

/-- C6 counterexample: history entries are not appended exactly on fully
successful pipeline runs.  With a succeeding transcriber and Groq call but a
failing synthesizer, `process_audio` returns the `"TTS failed"` failure,
yet the call's stored history has already gained the user/assistant pair. -/
theorem C6_counterexample :
    (processAudio (fun _ _ => ⟨true, "hello", "en", 0, 0, Option.none⟩)
        (.ok ("hi there", 1)) (fun _ => ⟨false, [], "", 0, some "tts down"⟩)
        [] [0] "c1" "en").1 =
      errorResponse "c1" "TTS failed" (.str "tts down") ∧
    histGet (processAudio (fun _ _ => ⟨true, "hello", "en", 0, 0, Option.none⟩)
        (.ok ("hi there", 1)) (fun _ => ⟨false, [], "", 0, some "tts down"⟩)
        [] [0] "c1" "en").2.2 "c1" =
      [("user", "hello"), ("assistant", "hi there")] :=
  ⟨rfl, rfl⟩

/-- C6 (amended).  The stored conversation history never exceeds 20 entries
under any sequence of operations; one `{role: user}` and one
`{role: assistant}` entry are appended (followed by trimming to the most
recent 20) exactly when the reasoning stage succeeds — even if synthesis
later fails — and never when the Groq call raises; after 11 AI-successful
user/assistant exchanges for one call the stored length is exactly 20, the
10 most recent exchanges. -/
theorem C6_history_bound :
    (∀ ops : List AIop, ∀ id, (histGet (runAIops [] ops) id).length ≤ 20) ∧
    (∀ h c u a, (histGet (updateHistory h c u a) c).length ≤ 20) ∧
    (∀ e h u c, (getResponse (.error e) h u c).2 = h) ∧
    (∀ content tok h u c,
        (getResponse (.ok (content, tok)) h u c).2 =
          updateHistory h c u (pyStrip content)) ∧
    histGet (runAIops []
      [.chat (.ok ("a0", 0)) "q0" "c1", .chat (.ok ("a1", 0)) "q1" "c1",
       .chat (.ok ("a2", 0)) "q2" "c1", .chat (.ok ("a3", 0)) "q3" "c1",
       .chat (.ok ("a4", 0)) "q4" "c1", .chat (.ok ("a5", 0)) "q5" "c1",
       .chat (.ok ("a6", 0)) "q6" "c1", .chat (.ok ("a7", 0)) "q7" "c1",
       .chat (.ok ("a8", 0)) "q8" "c1", .chat (.ok ("a9", 0)) "q9" "c1",
       .chat (.ok ("a10", 0)) "q10" "c1"]) "c1" =
      [("user", "q1"), ("assistant", "a1"), ("user", "q2"), ("assistant", "a2"),
       ("user", "q3"), ("assistant", "a3"), ("user", "q4"), ("assistant", "a4"),
       ("user", "q5"), ("assistant", "a5"), ("user", "q6"), ("assistant", "a6"),
       ("user", "q7"), ("assistant", "a7"), ("user", "q8"), ("assistant", "a8"),
       ("user", "q9"), ("assistant", "a9"), ("user", "q10"), ("assistant", "a10")] := by
  refine ⟨fun ops => runAIops_bound ops [] (fun id => by simp [histGet]),
    updateHistory_len_le, fun e h u c => rfl, fun content tok h u c => rfl, rfl⟩

/-- Disconnecting an unregistered id is a no-op. -/
theorem disconnect_not_registered (st : ConnState) (id : String)
    (h : id ∉ st.active) : disconnect st id = st := by
  unfold disconnect
  rw [if_neg (fun hc => h (List.elem_iff.mp hc))]

/-- After `disconnect`, the id is no longer registered. -/
theorem not_active_disconnect_self (st : ConnState) (id : String) :
    id ∉ (disconnect st id).active := by
  unfold disconnect
  by_cases hc : st.active.contains id = true
  · rw [if_pos hc]
    intro hm
    have h2 := (List.mem_filter.mp hm).2
    simp at h2
  · rw [if_neg hc]
    exact fun hm => hc (List.elem_iff.mpr hm)

/-- After `disconnect`, either the id's heartbeat task is cancelled or the
id is unregistered (for a registered id both hold; for an unregistered one
the session check alone blocks the heartbeat body). -/
theorem disconnect_self_Q (st : ConnState) (id : String) :
    id ∉ (disconnect st id).tasks ∨ id ∉ (disconnect st id).active :=
  Or.inr (not_active_disconnect_self st id)

/-- `disconnect` of any id preserves "cancelled or unregistered" for `id`. -/
theorem disconnect_preserves_Q (st : ConnState) (j id : String)
    (hQ : id ∉ st.tasks ∨ id ∉ st.active) :
    id ∉ (disconnect st j).tasks ∨ id ∉ (disconnect st j).active := by
  unfold disconnect
  by_cases hc : st.active.contains j = true
  · rw [if_pos hc]
    rcases hQ with h | h
    · exact Or.inl (fun hm => h (List.mem_filter.mp hm).1)
    · exact Or.inr (fun hm => h (List.mem_filter.mp hm).1)
  · rw [if_neg hc]
    exact hQ

/-- `send_message` never revives a cancelled task or re-registers a
session. -/
theorem sendMessage_preserves_Q (deliver : String → Bool) (st : ConnState)
    (j : String) (msg : PyDict) (id : String)
    (hQ : id ∉ st.tasks ∨ id ∉ st.active) :
    id ∉ (sendMessage deliver st j msg).1.tasks ∨
      id ∉ (sendMessage deliver st j msg).1.active := by
  unfold sendMessage
  by_cases h1 : st.active.contains j = true
  · rw [if_pos h1]
    by_cases h2 : deliver j = true
    · rw [if_pos h2]
      exact hQ
    · rw [if_neg h2]
      exact disconnect_preserves_Q st j id hQ
  · rw [if_neg h1]
    exact hQ

/-- Any step other than re-connecting `id` preserves "cancelled or
unregistered" for `id`. -/
theorem cmStep_preserves_Q (deliver : String → Bool) (st st2 : ConnState)
    (ev : CMev) (id : String)
    (hQ : id ∉ st.tasks ∨ id ∉ st.active)
    (hev : ev ≠ CMev.connect id)
    (hstep : cmStep deliver st ev = some st2) :
    id ∉ st2.tasks ∨ id ∉ st2.active := by
  cases ev with
  | connect j =>
    have hji : id ≠ j := fun hcon => hev (by rw [hcon])
    have hstep2 : connect st j = st2 := by simpa [cmStep] using hstep
    rw [← hstep2]
    unfold connect
    rcases hQ with h | h
    · refine Or.inl ?_
      by_cases hc : j ∈ st.tasks
      · simpa [hc] using h
      · simp [hc, List.mem_append, List.mem_singleton, h, hji]
    · refine Or.inr ?_
      by_cases hc : j ∈ st.active
      · simpa [hc] using h
      · simp [hc, List.mem_append, List.mem_singleton, h, hji]
  | disconnect j =>
    have hstep2 : disconnect st j = st2 := by simpa [cmStep] using hstep
    rw [← hstep2]
    exact disconnect_preserves_Q st j id hQ
  | heartbeatFire j =>
    simp only [cmStep] at hstep
    rcases hif : (st.tasks.contains j && st.active.contains j) with _ | _
    · rw [hif] at hstep
      cases hstep
    · rw [hif] at hstep
      have hstep2 : (sendMessage deliver st j heartbeatMsg).1 = st2 :=
        Option.some.inj (by simpa using hstep)
      rw [← hstep2]
      exact sendMessage_preserves_Q deliver st j heartbeatMsg id hQ
  | appSend j =>
    have hstep2 : (sendMessage deliver st j []).1 = st2 := by
      simpa [cmStep] using hstep
    rw [← hstep2]
    exact sendMessage_preserves_Q deliver st j [] id hQ

/-- While `id`'s heartbeat task is cancelled or `id` is unregistered, no
valid continuation that does not re-connect `id` can fire a heartbeat for
`id`. -/
theorem cm_no_heartbeat_aux (deliver : String → Bool) (id : String) :
    ∀ (evs : List CMev) (st st1 : ConnState),
      (id ∉ st.tasks ∨ id ∉ st.active) →
      cmRun deliver st evs = some st1 →
      CMev.connect id ∉ evs →
      CMev.heartbeatFire id ∉ evs := by
  intro evs
  induction evs with
  | nil => exact fun st st1 _ _ _ => List.not_mem_nil _
  | cons ev rest ih =>
    intro st st1 hQ hrun hnc
    cases hstep : cmStep deliver st ev with
    | none => rw [cmRun, hstep] at hrun; cases hrun
    | some st2 =>
      have hrun2 : cmRun deliver st2 rest = some st1 := by
        rw [cmRun, hstep] at hrun
        exact hrun
      have hnc_head : ev ≠ CMev.connect id := fun hcon => hnc (hcon ▸ List.mem_cons_self _ _)
      have hnc_rest : CMev.connect id ∉ rest := fun hm => hnc (List.mem_cons_of_mem _ hm)
      have hQ2 := cmStep_preserves_Q deliver st st2 ev id hQ hnc_head hstep
      have hrest := ih st2 st1 hQ2 hrun2 hnc_rest
      intro hm
      rcases List.mem_cons.mp hm with hhead | htail
      · subst hhead
        simp only [cmStep] at hstep
        rcases hif : (st.tasks.contains id && st.active.contains id) with _ | _
        · rw [hif] at hstep
          cases hstep
        · have h1 := Bool.and_eq_true_iff.mp hif
          rcases hQ with h | h
          · exact h (List.elem_iff.mp h1.1)
          · exact h (List.elem_iff.mp h1.2)
      · exact hrest htail

/-- C7.  `disconnect` is idempotent — a no-op on an unregistered id, and a
second disconnect of the same id does nothing; once `disconnect(id)`
returns, its heartbeat task is cancelled and its record removed, so no
valid scheduler continuation can deliver a heartbeat for `id` until a new
`connect(id)`; and after `connect(A)`, `connect(B)`, `disconnect(A)`
exactly one session (`B`, with its task) remains. -/
theorem C7_disconnect :
    (∀ (st : ConnState) (id : String), id ∉ st.active → disconnect st id = st) ∧
    (∀ (st : ConnState) (id : String),
        disconnect (disconnect st id) id = disconnect st id) ∧
    (∀ (deliver : String → Bool) (st : ConnState) (id : String)
        (evs : List CMev) (st1 : ConnState),
        cmRun deliver (disconnect st id) evs = some st1 →
        CMev.connect id ∉ evs →
        CMev.heartbeatFire id ∉ evs) ∧
    (disconnect (connect (connect ConnState.empty "A") "B") "A").active = ["B"] ∧
    (disconnect (connect (connect ConnState.empty "A") "B") "A").tasks = ["B"] := by
  refine ⟨disconnect_not_registered, ?_, ?_, rfl, rfl⟩
  · intro st id
    exact disconnect_not_registered _ _ (not_active_disconnect_self st id)
  · intro deliver st id evs st1 hrun hnc
    exact cm_no_heartbeat_aux deliver id evs (disconnect st id) st1
      (disconnect_self_Q st id) hrun hnc

/-- C7 witness: the temporal clause at a concrete state and continuation —
after disconnecting `A`, a continuation that connects `B` cannot contain a
heartbeat for `A`. -/
theorem C7_witness :
    CMev.heartbeatFire "A" ∉ ([CMev.connect "B"] : List CMev) :=
  C7_disconnect.2.2.1 (fun _ => true) (connect ConnState.empty "A") "A"
    [CMev.connect "B"] (connect (disconnect (connect ConnState.empty "A") "A") "B")
    rfl (by decide)

/-- Shape of `send_message` on a delivery failure: the failing session is
evicted via `disconnect` and the function returns normally. -/
theorem sendMessage_fail (deliver : String → Bool) (st : ConnState) (id : String)
    (msg : PyDict) (h1 : st.active.contains id = true) (h2 : deliver id = false) :
    sendMessage deliver st id msg = (disconnect st id, [SendEv.failed id]) := by
  unfold sendMessage
  rw [if_pos h1, if_neg (by rw [h2]; exact Bool.false_ne_true)]

/-- Shape of `send_message` on a successful delivery. -/
theorem sendMessage_ok (deliver : String → Bool) (st : ConnState) (id : String)
    (msg : PyDict) (h1 : st.active.contains id = true) (h2 : deliver id = true) :
    sendMessage deliver st id msg =
      ({ st with infoSent := assocBump st.infoSent id }, [SendEv.delivered id msg]) := by
  unfold sendMessage
  rw [if_pos h1, if_pos h2]

/-- Closed form of the `broadcast` loop over a duplicate-free snapshot of
registered ids: every non-excluded snapshot id gets exactly one delivery
attempt (in snapshot order), and the failed ones — and only those — are
evicted from the registry. -/
theorem broadcastAux_spec (deliver : String → Bool) (msg : PyDict)
    (exclude : List String) :
    ∀ (l : List String) (st : ConnState), l.Nodup → (∀ x ∈ l, x ∈ st.active) →
      (broadcastAux deliver msg exclude l st).2 =
        (l.filter (fun id => !exclude.contains id)).map
          (fun id => if deliver id then SendEv.delivered id msg else SendEv.failed id) ∧
      (broadcastAux deliver msg exclude l st).1.active =
        st.active.filter
          (fun x => !(l.contains x && !exclude.contains x && !deliver x)) := by
  intro l
  induction l with
  | nil =>
    intro st _ _
    refine ⟨rfl, ?_⟩
    simp [broadcastAux]
  | cons id rest ih =>
    intro st hnod hsub
    have hmem : id ∈ st.active := hsub id (List.mem_cons_self _ _)
    have hcont : st.active.contains id = true := List.elem_iff.mpr hmem
    have hnr : id ∉ rest := (List.nodup_cons.mp hnod).1
    have hnod2 : rest.Nodup := (List.nodup_cons.mp hnod).2
    by_cases hexc : exclude.contains id = true
    · have hexcm : id ∈ exclude := List.elem_iff.mp hexc
      have hrec := ih st hnod2 (fun x hx => hsub x (List.mem_cons_of_mem _ hx))
      have hstep : broadcastAux deliver msg exclude (id :: rest) st =
          broadcastAux deliver msg exclude rest st := by
        simp only [broadcastAux]
        rw [if_pos hexc]
      rw [hstep]
      refine ⟨?_, ?_⟩
      · rw [hrec.1]
        have hf : (id :: rest).filter (fun i => !exclude.contains i) =
            rest.filter (fun i => !exclude.contains i) := by
          rw [List.filter_cons]
          simp [hexc, hexcm]
        rw [hf]
      · rw [hrec.2]
        apply List.filter_congr
        intro x _
        by_cases hx : x = id
        · subst hx
          simp [List.contains_cons, hexc, hexcm]
        · simp [List.contains_cons, hx]
    · have hexcm : id ∉ exclude := fun hm => hexc (List.elem_iff.mpr hm)
      have hexcF : exclude.contains id = false := by simpa using hexc
      have hrc : rest.contains id = false := by
        cases hc : rest.contains id with
        | false => rfl
        | true => exact absurd (List.elem_iff.mp hc) hnr
      have hstep : broadcastAux deliver msg exclude (id :: rest) st =
          ((broadcastAux deliver msg exclude rest (sendMessage deliver st id msg).1).1,
           (sendMessage deliver st id msg).2 ++
             (broadcastAux deliver msg exclude rest (sendMessage deliver st id msg).1).2) := by
        simp only [broadcastAux]
        rw [if_neg hexc]
      by_cases hdel : deliver id = true
      · have hsm := sendMessage_ok deliver st id msg hcont hdel
        have hrec := ih { st with infoSent := assocBump st.infoSent id } hnod2
          (fun x hx => hsub x (List.mem_cons_of_mem _ hx))
        rw [hstep, hsm]
        refine ⟨?_, ?_⟩
        · rw [hrec.1, List.filter_cons]
          simp [hexcF, hexcm, hdel]
        · rw [hrec.2]
          apply List.filter_congr
          intro x _
          by_cases hx : x = id
          · subst hx
            simp [List.contains_cons, hexcF, hexcm, hdel, hrc, hnr]
          · simp [List.contains_cons, hx]
      · have hdelF : deliver id = false := by simpa using hdel
        have hsm := sendMessage_fail deliver st id msg hcont hdelF
        have hda : (disconnect st id).active = st.active.filter (fun x => x != id) := by
          unfold disconnect
          rw [if_pos hcont]
        have hsub2 : ∀ x ∈ rest, x ∈ (disconnect st id).active := by
          intro x hx
          rw [hda]
          refine List.mem_filter.mpr ⟨hsub x (List.mem_cons_of_mem _ hx), ?_⟩
          exact bne_iff_ne.mpr (fun hcon => hnr (hcon ▸ hx))
        have hrec := ih (disconnect st id) hnod2 hsub2
        rw [hstep, hsm]
        refine ⟨?_, ?_⟩
        · rw [hrec.1, List.filter_cons]
          simp [hexcF, hexcm, hdelF]
        · rw [hrec.2, hda, List.filter_filter]
          apply List.filter_congr
          intro x _
          by_cases hx : x = id
          · subst hx
            simp [List.contains_cons, hexcF, hexcm, hdelF]
          · simp [List.contains_cons, hx]

/-- C8.  A transport failure during `send_message` disconnects exactly the
failing session and the call still returns normally (the error is turned
into an eviction, never surfaced); `broadcast` attempts delivery to every
registered session outside the exclusion set, in registry order, and a
failure for one session only evicts that session — the fan-out continues
and every other non-excluded session still gets its delivery attempt. -/
theorem C8_send_broadcast :
    (∀ (deliver : String → Bool) (st : ConnState) (id : String) (msg : PyDict),
        st.active.contains id = true → deliver id = false →
        sendMessage deliver st id msg = (disconnect st id, [SendEv.failed id])) ∧
    (∀ (deliver : String → Bool) (st : ConnState) (id : String) (msg : PyDict),
        st.active.contains id = true → deliver id = true →
        sendMessage deliver st id msg =
          ({ st with infoSent := assocBump st.infoSent id },
           [SendEv.delivered id msg])) ∧
    (∀ (deliver : String → Bool) (st : ConnState) (msg : PyDict)
        (exclude : List String), st.active.Nodup →
        (broadcast deliver st msg exclude).2 =
          (st.active.filter (fun id => !exclude.contains id)).map
            (fun id => if deliver id then SendEv.delivered id msg
                       else SendEv.failed id) ∧
        (broadcast deliver st msg exclude).1.active =
          st.active.filter (fun id => exclude.contains id || deliver id)) := by
  refine ⟨sendMessage_fail, sendMessage_ok, ?_⟩
  intro deliver st msg exclude hnod
  have hspec := broadcastAux_spec deliver msg exclude st.active st hnod (fun x hx => hx)
  refine ⟨hspec.1, ?_⟩
  show (broadcastAux deliver msg exclude st.active st).1.active = _
  rw [hspec.2]
  apply List.filter_congr
  intro x hx
  have hcx : st.active.contains x = true := List.elem_iff.mpr hx
  by_cases he : x ∈ exclude <;> by_cases hd : deliver x = true <;>
    simp [hx, hcx, he, hd]

/-- C8 witness: the failure clause at a concrete one-session registry — the
failed send returns the evicted registry, surfacing nothing. -/
theorem C8_witness :
    sendMessage (fun _ => false) ⟨["A"], [("A", 0)], ["A"]⟩ "A" [("type", .str "m")] =
      (disconnect ⟨["A"], [("A", 0)], ["A"]⟩ "A", [SendEv.failed "A"]) :=
  C8_send_broadcast.1 (fun _ => false) ⟨["A"], [("A", 0)], ["A"]⟩ "A"
    [("type", .str "m")] rfl rfl

end VoiceBackend
